import Mathlib

/-
Verification of the workflow execution engine (app/engine.py, app/nodes.py,
app/schema.py) against its natural-language specification.

The development is a shallow embedding of the engine:

* Python values are the inductive `Val`; Python dicts keyed by strings are
  `PyDict`, an association list with update-in-place-or-append semantics
  matching insertion-ordered Python dicts.
* The scheduler state of `WorkflowEngine._execute_workflow` is `EngineState`;
  the asynchronous main loop is determinised into a sequential `step`
  function that processes one ready node (or one finished timer task) at a
  time, in increasing index order.  Timer sleeps are abstracted into the
  event "the background task finished", fired when the scheduler is idle.
* Node executors from nodes.py are embedded as pure functions from
  (inputs, variable store, node index, static config) to a result and an
  updated store; a Python exception escaping an executor is an
  `Except.error` carrying the message and the store as mutated so far, and
  the catch-all of `WorkflowEngine._execute_node` is `executeNode`.
* `exec`/`eval` of user scripts is external dynamic code: a transform
  node's script outcome is a parameter of its `NodeDef`, and the gate's
  optional eval-based custom condition is not modelled (all claims concern
  gates without one).  Exception message texts are modelled, not quoted.
-/

set_option maxHeartbeats 1000000

namespace Numel

/-! ### Python values and dicts -/

/-- Model of a Python runtime value as the engine sees it: None, bool, int,
float (modelled by a rational), str, list, dict. -/
inductive Val where
  | none
  | bool (b : Bool)
  | int (n : Int)
  | float (q : Rat)
  | str (s : String)
  | list (xs : List Val)
  | dict (xs : List (String × Val))

/-- Check for Python `None`. -/
def Val.isNone : Val → Bool
  | .none => true
  | _ => false

/-- Python truthiness (`bool(v)` for non-str values, `if v:`). -/
def Val.truthy : Val → Bool
  | .none => false
  | .bool b => b
  | .int n => n ≠ 0
  | .float q => q ≠ 0
  | .str s => s ≠ ""
  | .list xs => ¬ xs.isEmpty
  | .dict xs => ¬ xs.isEmpty

/-- An insertion-ordered string-keyed Python dict. -/
abbrev PyDict := List (String × Val)

/-- Lookup, `d.get(k)` / `d[k]`. -/
def PyDict.get? (m : PyDict) (k : String) : Option Val :=
  (List.find? (fun p => p.1 == k) m).map (fun p => p.2)

/-- Lookup with default, `d.get(k, v0)`. -/
def PyDict.getD (m : PyDict) (k : String) (v0 : Val) : Val :=
  (m.get? k).getD v0

/-- `d[k] = v`: replace in place if the key exists, else append (Python
dicts preserve insertion order). -/
def PyDict.set (m : PyDict) (k : String) (v : Val) : PyDict :=
  if List.any m (fun p => p.1 == k) then
    List.map (fun p => if p.1 == k then (k, v) else p) m
  else
    m ++ [(k, v)]

/-- Membership of a key, `k in d`. -/
def PyDict.hasKey (m : PyDict) (k : String) : Bool :=
  List.any m (fun p => p.1 == k)

/-- Lookup that treats a stored Python `None` like an absent key; used to
model the `x = inputs.get(k); if x is None: fallback` idiom. -/
def PyDict.getNonNone (m : PyDict) (k : String) : Option Val :=
  match m.get? k with
  | Option.some v => if v.isNone then Option.none else Option.some v
  | Option.none => Option.none

/-! ### Decimal rendering of a natural number

Models Python `str(i)` / f-string interpolation of a non-negative int,
used by the engine to build node-scoped variable-store keys.  Defined with
explicit fuel so it reduces in the kernel. -/

/-- Little-endian decimal digits of `n`, with fuel (fuel `n` suffices). -/
def natDigitsAux : Nat → Nat → List Nat
  | 0, _ => []
  | f + 1, n => if n = 0 then [] else n % 10 :: natDigitsAux f (n / 10)

/-- Little-endian decimal digits of `n` (empty for 0). -/
def natDigits (n : Nat) : List Nat := natDigitsAux n n

/-- The ASCII digit character for `d < 10`. -/
def digitToChar (d : Nat) : Char := Char.ofNat (48 + d)

/-- Decimal rendering of a natural number, as Python `str` produces it. -/
def natRepr (n : Nat) : String :=
  if n = 0 then "0" else String.mk (((natDigits n).map digitToChar).reverse)

/-! ### Node-scoped variable-store keys

Embedded from the f-strings at their write sites:
* nodes.py `WFGateFlow.execute`: `_gate_{node_idx}_accumulated`,
  `_gate_{node_idx}_count`;
* nodes.py `WFDelayFlow.execute` and engine.py timer resume:
  `_delay_{idx}_resume`;
* engine.py `_execute_workflow` (loop-start launch): the single key
  `_loop_iteration`, written regardless of which loop-start node is
  launched — the function below records the key used *for node i*;
* engine.py `_execute_workflow` (timer resume): the shared keys
  `_timer_resume`, `_timer_count`, `_timer_elapsed`, also written
  regardless of the node index. -/

/-- Gate accumulator key for node `i`. -/
def gateAccKey (i : Nat) : String := "_gate_" ++ natRepr i ++ "_accumulated"

/-- Gate counter key for node `i`. -/
def gateCountKey (i : Nat) : String := "_gate_" ++ natRepr i ++ "_count"

/-- Delay/timer node-scoped resume flag for node `i`. -/
def delayResumeKey (i : Nat) : String := "_delay_" ++ natRepr i ++ "_resume"

/-- Key the engine uses for the loop iteration counter of loop-start node
`i`: a single shared key, not namespaced by the node index. -/
def loopIterationKey (_i : Nat) : String := "_loop_iteration"

/-- Un-scoped timer resume flag the engine also sets on resume of node
`i`. -/
def timerResumeKey (_i : Nat) : String := "_timer_resume"

/-! ### String helpers for Python builtins -/

/-- ASCII digit test. -/
def isDigitCh (c : Char) : Bool := 48 ≤ c.toNat && c.toNat ≤ 57

/-- Value of a list of ASCII digit characters, most significant first. -/
def digitsVal (l : List Char) : Nat :=
  l.foldl (fun a c => 10 * a + (c.toNat - 48)) 0

/-- Rendering of a Python int (possibly negative). -/
def intRepr (n : Int) : String :=
  if n < 0 then "-" ++ natRepr n.natAbs else natRepr n.natAbs

/-- ASCII lower-casing of a string, modelling `str.lower()` on the inputs
the engine compares against. -/
def lowerStr (s : String) : String :=
  String.mk (s.data.map (fun c =>
    if 65 ≤ c.toNat && c.toNat ≤ 90 then Char.ofNat (c.toNat + 32) else c))

/-- Model of the Python builtin `int(s)` on a string: optional surrounding
spaces, optional sign, then a non-empty digit run; anything else raises
`ValueError`, i.e. returns `Option.none` here.  (Digit-group underscores are
not modelled.) -/
def pyParseInt (s : String) : Option Int :=
  let l := ((s.data.dropWhile (· == ' ')).reverse.dropWhile (· == ' ')).reverse
  match l with
  | '-' :: rest =>
    if rest ≠ [] && rest.all isDigitCh then Option.some (-(digitsVal rest : Int))
    else Option.none
  | '+' :: rest =>
    if rest ≠ [] && rest.all isDigitCh then Option.some (digitsVal rest : Int)
    else Option.none
  | rest =>
    if rest ≠ [] && rest.all isDigitCh then Option.some (digitsVal rest : Int)
    else Option.none

/-- Model of the Python builtin `float(s)` on a string: optional sign,
digits with an optional single decimal point, at least one digit in total;
anything else raises `ValueError` (`Option.none`).  Exponents, `inf` and
`nan` are not modelled. -/
def pyParseFloatCore (l : List Char) : Option Rat :=
  let ip := l.takeWhile isDigitCh
  let rest := l.drop ip.length
  match rest with
  | [] => if ip ≠ [] then Option.some ((digitsVal ip : Int) : Rat) else Option.none
  | '.' :: fp =>
    if fp.all isDigitCh && (ip ≠ [] || fp ≠ []) then
      Option.some ((digitsVal ip : Rat) + (digitsVal fp : Rat) / ((10 : Rat) ^ fp.length))
    else Option.none
  | _ => Option.none

/-- Signed wrapper for `pyParseFloatCore` with surrounding spaces. -/
def pyParseFloat (s : String) : Option Rat :=
  let l := ((s.data.dropWhile (· == ' ')).reverse.dropWhile (· == ' ')).reverse
  match l with
  | '-' :: rest => (pyParseFloatCore rest).map (fun q => -q)
  | '+' :: rest => pyParseFloatCore rest
  | rest => pyParseFloatCore rest

/-- Truncation of a rational toward zero, as `int(float)` behaves. -/
def ratTrunc (q : Rat) : Int := q.num / (q.den : Int)

/-- Model of the builtin `int(v)`: succeeds on ints, floats (truncating)
and well-formed digit strings; raises (`Option.none`) on lists, dicts and
malformed strings.  (Python `int(True) = 1`, included for completeness;
`_coerce_edge_value` never reaches it for bools.) -/
def pyToInt : Val → Option Int
  | .int n => Option.some n
  | .float q => Option.some (ratTrunc q)
  | .str s => pyParseInt s
  | .bool b => Option.some (if b then 1 else 0)
  | _ => Option.none

/-- Model of the builtin `float(v)`. -/
def pyToFloat : Val → Option Rat
  | .int n => Option.some (n : Rat)
  | .float q => Option.some q
  | .bool b => Option.some (if b then 1 else 0)
  | .str s => pyParseFloat s
  | _ => Option.none

/-- Model of the builtin `str(v)`.  It never raises; the rendering of
floats and containers is abstracted (the engine never branches on those
strings). -/
def pyStr : Val → String
  | .none => "None"
  | .bool b => if b then "True" else "False"
  | .int n => intRepr n
  | .str s => s
  | .float _ => "<float>"
  | .list _ => "<list>"
  | .dict _ => "<dict>"

/-- Truthy-string test from `_coerce_edge_value`:
`value.lower() not in ('false', '0', 'no', 'none', '')`. -/
def pyStrToBool (s : String) : Bool :=
  ¬ (List.contains ["false", "0", "no", "none", ""] (lowerStr s))

/-! ### Edge-value coercion (`WorkflowEngine._coerce_edge_value`) -/

/-- Model of a target field's type hint as `_unwrap_annotation` sees it:
the primitive scalar classes, `Any`, `None`, a plain non-primitive class
(`otherA` — a genuine class, a legal second argument to `isinstance`), a
subscripted generic (`genericA` — `List[Any]`, `Dict[str, Any]`,
`Literal[...]`, a multi-arm `Union`: annotations `_unwrap_annotation`
returns unchanged and `isinstance` rejects with `TypeError`), and the
`Annotated`/`Optional` wrappers it unwraps. -/
inductive PyAnn where
  | noneA
  | anyA
  | intA
  | floatA
  | strA
  | boolA
  | otherA
  | genericA
  | annotated (a : PyAnn)
  | optionalA (a : PyAnn)

/-- Embedding of `WorkflowEngine._unwrap_annotation`: strip
`Annotated[X, ...]` and `Optional[X]` down to the core class. -/
def unwrapAnn : PyAnn → PyAnn
  | .annotated a => unwrapAnn a
  | .optionalA a => unwrapAnn a
  | a => a

/-- The message of the `TypeError` CPython raises for
`isinstance(value, core)` when `core` is a subscripted generic — verbatim
the same for `List[Any]`, `Dict[str, Any]`, `Union[List[str],
Dict[str, Any]]` and `Literal[...]`. -/
def subscriptedGenericsMsg : String :=
  "Subscripted generics cannot be used with class and instance checks"

/-- Embedding of `isinstance(value, core)`.  For a primitive core this is
the class check (note: a Python bool *is* an instance of int); for a
subscripted-generic core it raises `TypeError` — and the call sits outside
the `try` of `_coerce_edge_value`, so that raise escapes.  For a plain
non-primitive class the boolean result does not matter — both branches of
the coercion return the value unchanged — and we return false. -/
def pyIsInstance (v : Val) : PyAnn → Except String Bool
  | .intA => Except.ok (match v with
    | .int _ => true
    | .bool _ => true
    | _ => false)
  | .floatA => Except.ok (match v with
    | .float _ => true
    | _ => false)
  | .strA => Except.ok (match v with
    | .str _ => true
    | _ => false)
  | .boolA => Except.ok (match v with
    | .bool _ => true
    | _ => false)
  | .genericA => Except.error subscriptedGenericsMsg
  | _ => Except.ok false

/-- Embedding of `WorkflowEngine._coerce_edge_value`, mirroring the source
line by line: a `None`/`Any` core and a `None` value pass through; then
`isinstance(value, core)` runs *outside* the `try` — for a subscripted
generic core its `TypeError` propagates out of the function; the primitive
conversion chain runs inside the `try`, whose `TypeError`/`ValueError`
(modelled by the `Option.none` results of `pyToInt`/`pyToFloat`) are
caught, the original value being returned. -/
def coerceEdgeValue (v : Val) (ann : PyAnn) : Except String Val :=
  match unwrapAnn ann with
  | .noneA => Except.ok v
  | .anyA => Except.ok v
  | core =>
    if v.isNone then Except.ok v
    else
      match pyIsInstance v core with
      | Except.error e => Except.error e
      | Except.ok true => Except.ok v
      | Except.ok false =>
        Except.ok
          (match core with
            | .intA =>
              match v with
              | .bool _ => v
              | _ => (pyToInt v).elim v Val.int
            | .floatA => (pyToFloat v).elim v Val.float
            | .strA => Val.str (pyStr v)
            | .boolA =>
              match v with
              | .str s => Val.bool (pyStrToBool s)
              | _ => Val.bool v.truthy
            | _ => v)

/-! ### Graph model (schema.py `Edge`, node variants) -/

/-- Embedding of schema.py `Edge`: slot-addressed, with the `loop` flag
marking loop-back edges. -/
structure Edge where
  source : Nat
  target : Nat
  source_slot : String
  target_slot : String
  loop : Bool := false

/-- Embedding of the node variants the claims exercise.  `nonFlow` stands
for any non-`FlowType` node (config/value nodes, never scheduled).  A
transform node's script is executed by the Python `exec` builtin — external
dynamic code — so its outcome (a produced value, or the message of a raised
exception) is a parameter of the variant.  For-each loops and the
event-listener/source nodes are not needed by any claim and are not
embedded. -/
inductive NodeDef where
  | nonFlow
  | startFlow
  | endFlow
  | transform (outcome : Except String Val)
  | route (branches : List String)
  | loopStart (condition : Bool) (maxIter : Nat)
  | loopEnd
  | breakFlow
  | continueFlow
  | gate (threshold : Int) (resetOnFire : Bool)
  | delay (durationMs : Int)

/-- The `type` tag of a node (`getattr(node, 'type', None)`). -/
def NodeDef.typeTag : NodeDef → String
  | .nonFlow => "config_type"
  | .startFlow => "start_flow"
  | .endFlow => "end_flow"
  | .transform _ => "transform_flow"
  | .route _ => "route_flow"
  | .loopStart _ _ => "loop_start_flow"
  | .loopEnd => "loop_end_flow"
  | .breakFlow => "break_flow"
  | .continueFlow => "continue_flow"
  | .gate _ _ => "gate_flow"
  | .delay _ => "delay_flow"

/-- `isinstance(n, FlowType)`. -/
def NodeDef.isFlow : NodeDef → Bool
  | .nonFlow => false
  | _ => true

/-- `WorkflowEngine._is_loop_start_node`. -/
def NodeDef.isLoopStart : NodeDef → Bool
  | .loopStart _ _ => true
  | _ => false

/-- `WorkflowEngine._is_loop_end_node`. -/
def NodeDef.isLoopEnd : NodeDef → Bool
  | .loopEnd => true
  | _ => false

/-- Embedding of schema.py `Workflow`: ordered node list (index = identity)
plus edge list. -/
structure Workflow where
  nodes : List NodeDef
  edges : List Edge

/-- Node at index `i` (indices are in range for well-formed workflows). -/
def nodeAt (wf : Workflow) (i : Nat) : NodeDef := wf.nodes.getD i .nonFlow

/-! ### Node execution results (nodes.py `NodeExecutionResult`) -/

/-- Embedding of the wait-signal dict a delay node returns. -/
structure WaitSig where
  waitType : String
  durationMs : Val := Val.int 1000
  count : Val := Val.int 0
  maxCount : Option Val := Option.none

/-- Embedding of nodes.py `NodeExecutionResult`. -/
structure NodeResult where
  outputs : PyDict := []
  success : Bool := true
  error : Option String := Option.none
  nextTarget : Option String := Option.none
  waitSignal : Option WaitSig := Option.none

/-- `WFFlowType.execute` base behaviour: `outputs["flow_out"] =
context.variables.copy()`. -/
def flowOutBase (vars : PyDict) : PyDict := [("flow_out", Val.dict vars)]

/-- First component of a dotted slot name, `slot.split(".")[0]`. -/
def firstDotComponent (s : String) : String :=
  String.mk (s.data.takeWhile (fun c => c != '.'))

/-- Last component of a dotted slot name, `slot.split(".")[-1]`. -/
def lastDotComponent (s : String) : String :=
  String.mk ((s.data.reverse.takeWhile (fun c => c != '.')).reverse)

/-- Numeric view of a value for Python's permissive ordering comparisons
(bool counts as int). -/
def valAsRat? : Val → Option Rat
  | .int n => Option.some (n : Rat)
  | .float q => Option.some q
  | .bool b => Option.some (if b then 1 else 0)
  | _ => Option.none

/-- Python `a >= b` on engine-relevant values: defined for numeric pairs,
a `TypeError` (`Option.none`) otherwise. -/
def pyGE (a b : Val) : Option Bool :=
  match valAsRat? a, valAsRat? b with
  | Option.some x, Option.some y => Option.some (decide (y ≤ x))
  | _, _ => Option.none

/-! ### Node executors (nodes.py `WF*Flow.execute`)

Each executor maps (inputs, shared variable store, node index, static
config) to a result plus the store as the node left it.  A Python
exception escaping the executor is `Except.error (message, store-so-far)`;
message texts are modelled, not quoted from CPython. -/

/-- Embedding of `WFGateFlow.execute` for gates without a custom eval-based
condition (the `condition` input is external dynamic code evaluated with
`eval`; every claim concerns gates with `condition=None`, the threshold
path).  State is node-scoped under `gateAccKey`/`gateCountKey`.  A stored
accumulator that is not a list makes `accumulated.append`/`.copy()` raise,
and a non-numeric count/threshold makes `count >= threshold` raise — both
escape the executor uncaught, as in the source. -/
def gateExecRaw (threshold : Int) (resetOnFire : Bool) (inputs : PyDict)
    (vars : PyDict) (idx : Nat) : Except (String × PyDict) (NodeResult × PyDict) :=
  let thresholdV := (inputs.getNonNone "threshold").getD (Val.int threshold)
  let rofV := (inputs.getNonNone "reset_on_fire").getD (Val.bool resetOnFire)
  let accV := vars.getD (gateAccKey idx) (Val.list [])
  let countV := vars.getD (gateCountKey idx) (Val.int 0)
  let inputData := inputs.getNonNone "input"
  let base := flowOutBase vars
  match inputData with
  | Option.some inputVal =>
    match accV, countV with
    | Val.list xs, Val.int c =>
      let acc := xs ++ [inputVal]
      let countV := Val.int (c + 1)
      let vars1 := (vars.set (gateAccKey idx) (Val.list acc)).set (gateCountKey idx) countV
      match pyGE countV thresholdV with
      | Option.none => Except.error ("TypeError: unorderable count and threshold", vars1)
      | Option.some shouldFire =>
        let outputs := ((base.set "count" countV).set
          "accumulated" (Val.list acc)).set "triggered" (Val.bool shouldFire)
        if shouldFire then
          let outV := if acc.length > 1 then Val.list acc
            else match acc with
              | [x] => x
              | _ => Val.none
          let outputs := outputs.set "output" outV
          if rofV.truthy then
            let vars2 := (vars1.set (gateAccKey idx) (Val.list [])).set (gateCountKey idx) (Val.int 0)
            Except.ok ({ outputs := outputs.set "_gate_reset" (Val.bool true) }, vars2)
          else
            Except.ok ({ outputs := outputs }, vars1)
        else
          Except.ok ({ outputs := outputs.set "output" Val.none }, vars1)
    | Val.list _, _ => Except.error ("TypeError: unsupported increment on gate count", vars)
    | _, _ => Except.error ("AttributeError: gate accumulator has no append", vars)
  | Option.none =>
    let vars1 := (vars.set (gateAccKey idx) accV).set (gateCountKey idx) countV
    match pyGE countV thresholdV with
    | Option.none => Except.error ("TypeError: unorderable count and threshold", vars1)
    | Option.some shouldFire =>
      match accV with
      | Val.list acc =>
        let outputs := ((base.set "count" countV).set
          "accumulated" (Val.list acc)).set "triggered" (Val.bool shouldFire)
        if shouldFire then
          let outV := if acc.length > 1 then Val.list acc
            else match acc with
              | [x] => x
              | _ => Val.none
          let outputs := outputs.set "output" outV
          if rofV.truthy then
            let vars2 := (vars1.set (gateAccKey idx) (Val.list [])).set (gateCountKey idx) (Val.int 0)
            Except.ok ({ outputs := outputs.set "_gate_reset" (Val.bool true) }, vars2)
          else
            Except.ok ({ outputs := outputs }, vars1)
        else
          Except.ok ({ outputs := outputs.set "output" Val.none }, vars1)
      | _ => Except.error ("AttributeError: gate accumulator has no copy", vars1)

/-- Embedding of `WFDelayFlow.execute`: first call arms a timer wait
signal; a call with the node-scoped resume flag set passes the input
through and clears the flag. -/
def delayExecRaw (durationMs : Int) (inputs : PyDict) (vars : PyDict)
    (idx : Nat) : Except (String × PyDict) (NodeResult × PyDict) :=
  let durationV := (inputs.getNonNone "duration_ms").getD (Val.int durationMs)
  let isResume := (vars.getD (delayResumeKey idx) (Val.bool false)).truthy
  let outputs := (flowOutBase vars).set "output" (inputs.getD "input" Val.none)
  let sig : WaitSig :=
    { waitType := "timer", durationMs := durationV, count := Val.int 0,
      maxCount := Option.some (Val.int 1) }
  if isResume then
    Except.ok ({ outputs := outputs }, vars.set (delayResumeKey idx) (Val.bool false))
  else
    Except.ok ({ outputs := outputs, waitSignal := Option.some sig }, vars)

/-- Embedding of each node variant's `execute`. -/
def execRaw (cfg : NodeDef) (inputs : PyDict) (vars : PyDict) (idx : Nat) :
    Except (String × PyDict) (NodeResult × PyDict) :=
  match cfg with
  | .nonFlow => Except.ok ({ outputs := [] }, vars)
  | .startFlow =>
    Except.ok ({ outputs := (flowOutBase vars).set "flow_out" (inputs.getD "flow_in" Val.none) }, vars)
  | .endFlow => Except.ok ({ outputs := flowOutBase vars }, vars)
  | .transform outcome =>
    match outcome with
    | Except.ok v => Except.ok ({ outputs := (flowOutBase vars).set "output" v }, vars)
    | Except.error e =>
      Except.ok ({ outputs := flowOutBase vars, success := false, error := Option.some e }, vars)
  | .route branches =>
    let inp := inputs.getD "input" Val.none
    let base := flowOutBase vars
    match inputs.getNonNone "target" with
    | Option.some v =>
      let t := pyStr v
      if branches.contains t then
        Except.ok ({ outputs := base.set ("output." ++ t) inp, nextTarget := Option.some t }, vars)
      else
        Except.ok ({ outputs := base.set "default" inp, nextTarget := Option.some "default" }, vars)
    | Option.none =>
      Except.ok ({ outputs := base.set "default" inp, nextTarget := Option.some "default" }, vars)
  | .loopStart _ _ =>
    Except.ok ({ outputs := (flowOutBase vars).set "iteration" (vars.getD "_loop_iteration" (Val.int 0)) }, vars)
  | .loopEnd =>
    let outs := (flowOutBase vars).set "output" (inputs.getD "input" Val.none)
    Except.ok ({ outputs := outs.set "_loop_signal" (Val.str "end") }, vars)
  | .breakFlow =>
    Except.ok ({ outputs := (flowOutBase vars).set "_loop_signal" (Val.str "break") }, vars)
  | .continueFlow =>
    Except.ok ({ outputs := (flowOutBase vars).set "_loop_signal" (Val.str "continue") }, vars)
  | .gate t r => gateExecRaw t r inputs vars idx
  | .delay d => delayExecRaw d inputs vars idx

/-- The per-node execution boundary of `WorkflowEngine._execute_node`: an
exception escaping the node's `execute` is caught and converted into a
fresh failed result carrying the exception message; mutations the node made
to the shared store before raising persist. -/
def executeNode (cfg : NodeDef) (inputs : PyDict) (vars : PyDict) (idx : Nat) :
    NodeResult × PyDict :=
  match execRaw cfg inputs vars idx with
  | Except.ok r => r
  | Except.error (e, vars') =>
    ({ outputs := [], success := false, error := Option.some e }, vars')

/-! ### Input gathering (`WorkflowEngine._gather_inputs`) -/

/-- Native field values seeded from the node's static config
(`node_config.dict()` minus the base fields, minus `None` values), as the
schema declares them. -/
def configInputs : NodeDef → PyDict
  | .loopStart c m => [("condition", Val.bool c), ("max_iter", Val.int m), ("iteration", Val.int 0)]
  | .gate t r =>
    [("threshold", Val.int t), ("reset_on_fire", Val.bool r),
     ("count", Val.int 0), ("triggered", Val.bool false)]
  | .delay d => [("duration_ms", Val.int d)]
  | .route bs => [("output", Val.dict (bs.map (fun b => (b, Val.none))))]
  | _ => []

/-- The pydantic field annotation of a target slot, as
`model_fields[name].annotation` exposes it, for the node kinds modelled
here as schema.py declares them.  Every kind inherits the base fields
`type : Literal[...]` and `extra : Optional[Dict[str, Any]]` (subscripted
generics) and `id : str`; the gate's `accumulated` is `List[Any]`, the
route's `output` is `Union[List[str], Dict[str, Any]]` and the
transform's `context` is `Optional[Dict[str, Any]]` — all annotations on
which the coercion's `isinstance` raises.  The remaining data slots are
`Any`/`Optional[Any]`, for which the coercion is the identity — exactly as
an absent annotation behaves. -/
def fieldAnn : NodeDef → String → PyAnn
  | _, "type" => .genericA
  | _, "id" => .strA
  | _, "extra" => .optionalA .genericA
  | .loopStart _ _, "condition" => .boolA
  | .loopStart _ _, "max_iter" => .intA
  | .loopStart _ _, "iteration" => .intA
  | .gate _ _, "threshold" => .intA
  | .gate _ _, "condition" => .optionalA .strA
  | .gate _ _, "reset_on_fire" => .boolA
  | .gate _ _, "count" => .intA
  | .gate _ _, "triggered" => .boolA
  | .gate _ _, "accumulated" => .genericA
  | .delay _, "duration_ms" => .intA
  | .route _, "output" => .genericA
  | .transform _, "lang" => .strA
  | .transform _, "script" => .strA
  | .transform _, "context" => .optionalA .genericA
  | _, _ => .anyA

/-- Embedding of `WorkflowEngine._gather_inputs`: seed with native config
values, then overlay values delivered by inbound edges from sources that
have produced outputs (falling back from a dotted slot to its prefix), with
`_coerce_edge_value` applied per the target field's annotation.  A
`TypeError` the coercion raises aborts the gather at that edge and
propagates, to be caught at the `_execute_node` boundary.  The full edge
list is scanned — loop-back edges deliver values too. -/
def gatherInputs (wf : Workflow) (idx : Nat) (outMap : Nat → Option PyDict) :
    Except String PyDict :=
  wf.edges.foldlM (fun inputs e =>
    if e.target = idx then
      match outMap e.source with
      | Option.some srcData =>
        let data : Option Val :=
          match srcData.get? e.source_slot with
          | Option.some v => Option.some v
          | Option.none => srcData.get? (firstDotComponent e.source_slot)
        match data with
        | Option.some v =>
          if v.isNone then Except.ok inputs
          else
            match coerceEdgeValue v (fieldAnn (nodeAt wf idx) e.target_slot) with
            | Except.error err => Except.error err
            | Except.ok w => Except.ok (inputs.set e.target_slot w)
        | Option.none => Except.ok inputs
      | Option.none => Except.ok inputs
    else Except.ok inputs) (configInputs (nodeAt wf idx))

/-! ### Loop contexts and execution state (engine.py) -/

/-- Embedding of engine.py `LoopContext`. -/
structure LoopCtx where
  loopStartIdx : Nat
  loopEndIdx : Option Nat := Option.none
  loopType : String := "loop"
  iteration : Nat := 0
  maxIterations : Nat := 10000
  itemsCount : Nat := 0
  bodyNodes : Finset Nat := ∅
  isActive : Bool := true
deriving DecidableEq

/-- Run status of an execution (the engine's RUNNING/COMPLETED/FAILED). -/
inductive RunStatus where
  | running
  | completedOk
  | failed
deriving DecidableEq

/-- The scheduler state of `WorkflowEngine._execute_workflow`: the five
node-index sets, stored outputs, the shared variable store, loop tracking,
wait tracking, outstanding timer tasks (abstracted to their node indices),
and the run outcome.  `execLog` records every node execution in order (for
counting loop-body executions); it has no counterpart in the source state
but is write-only. -/
structure EngineState where
  pending : Finset Nat
  ready : Finset Nat
  running : Finset Nat
  waiting : Finset Nat
  completed : Finset Nat
  failedNodes : List Nat := []
  outputsMap : Nat → Option PyDict
  vars : PyDict
  loopStack : List Nat := []
  loopCtxs : Nat → Option LoopCtx
  waitSignals : Nat → Option WaitSig
  timerTasks : Finset Nat := ∅
  status : RunStatus := RunStatus.running
  error : Option String := Option.none
  execLog : List Nat := []

/-- Pointwise update of an index-keyed map. -/
def updMap {α : Type} (m : Nat → Option α) (k : Nat) (v : Option α) : Nat → Option α :=
  fun i => if i = k then v else m i

/-! ### Dependency building (engine.py `_build_dependencies` etc.) -/

/-- `active_edges`: edges whose endpoints are both flow nodes. -/
def activeEdges (wf : Workflow) : List Edge :=
  wf.edges.filter (fun e => (nodeAt wf e.source).isFlow && (nodeAt wf e.target).isFlow)

/-- `dependencies[target] = sources`, excluding loop-back edges. -/
def buildDependencies (edges : List Edge) : Nat → Finset Nat :=
  fun t => (edges.filter (fun e => !e.loop && e.target == t)).foldl
    (fun s e => insert e.source s) ∅

/-- `dependents[source] = targets`, excluding loop-back edges. -/
def buildDependents (edges : List Edge) : Nat → Finset Nat :=
  fun v => (edges.filter (fun e => !e.loop && e.source == v)).foldl
    (fun s e => insert e.target s) ∅

/-- Deduplicated forward-successor list of a node (excluding loop-back
edges), in edge order.  Models `forward_edges[s]`; Python's iteration order
over a set of small ints is abstracted to first-occurrence edge order,
which no claim depends on. -/
def dedupFirstAux : List Nat → List Nat → List Nat
  | [], _ => []
  | x :: xs, seen => if x ∈ seen then dedupFirstAux xs seen else x :: dedupFirstAux xs (x :: seen)

/-- Forward successors of `v` over non-loop-back edges. -/
def forwardTargets (edges : List Edge) (v : Nat) : List Nat :=
  dedupFirstAux ((edges.filter (fun e => !e.loop && e.source == v)).map (fun e => e.target)) []

/-! ### Loop detection (engine.py `_detect_loop_structures`,
`_find_loop_end_and_body`)

The Python DFS loops are written with an explicit stack whose `pop()`
takes the last element; the Lean versions keep the stack with its head as
the Python top, so `stack.extend(xs)` becomes `xs.reverse ++ stack`.  Fuel
makes the recursion structural; `detectFuel` below over-approximates the
iteration count of any run of the source loops. -/

/-- Fuel bound sufficient for the detection walks of a workflow. -/
def detectFuel (wf : Workflow) : Nat :=
  (wf.nodes.length + 2) * (wf.edges.length + 2) + wf.nodes.length + 2

/-- DFS of `_find_loop_end_and_body`: returns the matching end node (if
found) and the body collected so far, tracking nested-loop depth. -/
def findLoopEndAndBodyAux (wf : Workflow) (edges : List Edge) (endType : String) :
    Nat → List Nat → Finset Nat → Finset Nat → Nat → Option Nat × Finset Nat
  | 0, _, _, body, _ => (Option.none, body)
  | _ + 1, [], _, body, _ => (Option.none, body)
  | f + 1, c :: stack, visited, body, depth =>
    if c ∈ visited then findLoopEndAndBodyAux wf edges endType f stack visited body depth
    else
      let visited := insert c visited
      let node := nodeAt wf c
      let push := (forwardTargets edges c).reverse
      if node.isLoopStart then
        findLoopEndAndBodyAux wf edges endType f (push ++ stack) visited (insert c body) (depth + 1)
      else if node.isLoopEnd then
        if depth > 0 then
          findLoopEndAndBodyAux wf edges endType f (push ++ stack) visited (insert c body) (depth - 1)
        else if node.typeTag == endType then (Option.some c, body)
        else findLoopEndAndBodyAux wf edges endType f (push ++ stack) visited body depth
      else
        findLoopEndAndBodyAux wf edges endType f (push ++ stack) visited (insert c body) depth

/-- `_find_loop_end_and_body` for the loop starting at `startIdx`. -/
def findLoopEndAndBody (wf : Workflow) (edges : List Edge) (startIdx : Nat) :
    Option Nat × Finset Nat :=
  let endType := "loop_end_flow"
  findLoopEndAndBodyAux wf edges endType (detectFuel wf)
    ((forwardTargets edges startIdx).reverse) {startIdx} ∅ 0

/-- DFS of the body/end search inside `_detect_loop_structures`: stops at
the matching end (not added to the body); a nested loop start is resolved
via `findLoopEndAndBody` and its start, end and body are absorbed, with
traversal continuing past the nested end. -/
def detectDFSAux (wf : Workflow) (edges : List Edge) (endType : String) (startIdx : Nat) :
    Nat → List Nat → Finset Nat → Finset Nat → Option Nat × Finset Nat
  | 0, _, _, body => (Option.none, body)
  | _ + 1, [], _, body => (Option.none, body)
  | f + 1, c :: stack, visited, body =>
    if c ∈ visited then detectDFSAux wf edges endType startIdx f stack visited body
    else
      let visited := insert c visited
      let node := nodeAt wf c
      if node.typeTag == endType then (Option.some c, body)
      else if node.isLoopStart && c ≠ startIdx then
        match findLoopEndAndBody wf edges c with
        | (Option.some nend, nbody) =>
          let body := insert nend (insert c (body ∪ nbody))
          detectDFSAux wf edges endType startIdx f
            ((forwardTargets edges nend).reverse ++ stack) visited body
        | (Option.none, _) => detectDFSAux wf edges endType startIdx f stack visited body
      else
        detectDFSAux wf edges endType startIdx f
          ((forwardTargets edges c).reverse ++ stack) visited (insert c body)

/-- Embedding of `_detect_loop_structures` as an index-keyed map of loop
contexts (one per loop-start node). -/
def detectLoopStructures (wf : Workflow) (edges : List Edge) : Nat → Option LoopCtx :=
  fun i =>
    if (nodeAt wf i).isLoopStart ∧ i < wf.nodes.length then
      let (endIdx, body) := detectDFSAux wf edges "loop_end_flow" i (detectFuel wf)
        ((forwardTargets edges i).reverse) {i} ∅
      let maxIter := match nodeAt wf i with
        | .loopStart _ m => m
        | _ => 10000
      Option.some
        { loopStartIdx := i, loopEndIdx := endIdx, loopType := "loop",
          iteration := 0, maxIterations := maxIter, bodyNodes := body, isActive := true }
    else Option.none

/-! ### Scheduler transitions

Each function below embeds one state manipulation of
`_execute_workflow`/its helpers.  The Python `for` loops over set
snapshots act independently per element (the sets they test are not the
sets they mutate within one loop), so they are rendered as set
comprehensions. -/

/-- Initial seeding: every pending node with an empty dependency set moves
to ready (engine.py "Find start nodes"). -/
def seedReady (deps : Nat → Finset Nat) (pending ready : Finset Nat) :
    Finset Nat × Finset Nat :=
  (pending.filter (fun i => deps i ≠ ∅), ready ∪ pending.filter (fun i => deps i = ∅))

/-- Dependency propagation to `allowed` dependents of a completed node: a
dependent not completed and not running whose full dependency set is a
subset of `completed` moves from pending to ready. -/
def propagateDependents (deps : Nat → Finset Nat) (allowed : Finset Nat)
    (s : EngineState) : EngineState :=
  let mv := allowed.filter (fun d => d ∉ s.completed ∧ d ∉ s.running ∧ deps d ⊆ s.completed)
  { s with pending := s.pending \ mv, ready := s.ready ∪ mv }

/-- Post-loop-signal recheck: every pending node whose dependency set is
now a subset of `completed` moves to ready. -/
def recheckPending (deps : Nat → Finset Nat) (s : EngineState) : EngineState :=
  let mv := s.pending.filter (fun d => deps d ⊆ s.completed)
  { s with pending := s.pending \ mv, ready := s.ready ∪ mv }

/-- Targets of the route node's non-loop-back out-edges whose source slot
equals the branch key or whose dotted suffix equals it. -/
def routeMatchTargets (edges : List Edge) (idx : Nat) (t : String) : Finset Nat :=
  (edges.filter (fun e =>
    e.source == idx && !e.loop &&
      (e.source_slot == t || lastDotComponent e.source_slot == t))).foldl
    (fun s e => insert e.target s) ∅

/-- Targets of the route node's other non-loop-back out-edges. -/
def routeSkipTargets (edges : List Edge) (idx : Nat) (t : String) : Finset Nat :=
  (edges.filter (fun e =>
    e.source == idx && !e.loop &&
      ¬(e.source_slot == t || lastDotComponent e.source_slot == t))).foldl
    (fun s e => insert e.target s) ∅

/-- Branch filter of the route propagation: dependents on non-selected
branches that are still pending are short-circuited to completed with
empty outputs; the allowed set is returned for normal propagation. -/
def routeShortCircuit (edges : List Edge) (idx : Nat) (t : String)
    (s : EngineState) : EngineState × Finset Nat :=
  let allowed := routeMatchTargets edges idx t
  let skipped := routeSkipTargets edges idx t
  let skipSet := (skipped \ allowed) ∩ s.pending
  ({ s with
     completed := s.completed ∪ skipSet
     pending := s.pending \ skipSet
     outputsMap := fun j => if j ∈ skipSet then Option.some [] else s.outputsMap j },
   allowed)

/-- `_get_current_loop_context`: innermost active loop context on the
stack that contains the node (as body, start or end). -/
def getCurrentLoopCtx (s : EngineState) (nodeIdx : Nat) : Option LoopCtx :=
  s.loopStack.reverse.findSome? (fun i =>
    match s.loopCtxs i with
    | Option.some ctx =>
      if ctx.isActive ∧
          (nodeIdx ∈ ctx.bodyNodes ∨ nodeIdx = ctx.loopStartIdx ∨
            ctx.loopEndIdx = Option.some nodeIdx) then
        Option.some ctx
      else Option.none
    | Option.none => Option.none)

/-- Iteration/activity reset applied to nested loop contexts inside a
reset body. -/
def resetNestedCtx (c : LoopCtx) : LoopCtx := { c with iteration := 0, isActive := true }

/-- `_reset_loop_body`: body nodes (and the loop end) return to pending,
their outputs, wait signals and timer tasks are dropped, and nested loop
contexts are re-armed.  The loop end's wait signal and timer task are not
touched, exactly as in the source. -/
def resetLoopBody (ctx : LoopCtx) (s : EngineState) : EngineState :=
  let body := ctx.bodyNodes
  let s :=
    { s with
      completed := s.completed \ body
      running := s.running \ body
      ready := s.ready \ body
      pending := s.pending ∪ body
      outputsMap := fun j => if j ∈ body then Option.none else s.outputsMap j
      loopCtxs := fun j => if j ∈ body then (s.loopCtxs j).map resetNestedCtx else s.loopCtxs j
      waiting := s.waiting \ body
      waitSignals := fun j => if j ∈ body then Option.none else s.waitSignals j
      timerTasks := s.timerTasks \ body }
  match ctx.loopEndIdx with
  | Option.some e =>
    { s with
      completed := s.completed.erase e
      running := s.running.erase e
      ready := s.ready.erase e
      pending := insert e s.pending
      outputsMap := updMap s.outputsMap e Option.none
      waiting := s.waiting.erase e }
  | Option.none => s

/-- `_skip_loop_body`: body nodes and the loop end are marked completed,
removed (only) from pending and ready, and the context is deactivated. -/
def skipLoopBody (ctx : LoopCtx) (s : EngineState) : EngineState :=
  let bodyEnd := match ctx.loopEndIdx with
    | Option.some e => insert e ctx.bodyNodes
    | Option.none => ctx.bodyNodes
  { s with
    pending := s.pending \ bodyEnd
    ready := s.ready \ bodyEnd
    completed := s.completed ∪ bodyEnd
    loopCtxs := updMap s.loopCtxs ctx.loopStartIdx
      (Option.some { ctx with isActive := false }) }

/-- `_evaluate_loop_condition`: stop at the iteration cap; for-each loops
continue while items remain; plain loops re-check the start node's static
condition field. -/
def evaluateLoopCondition (wf : Workflow) (ctx : LoopCtx)
    (outMap : Nat → Option PyDict) : Bool :=
  if ctx.iteration ≥ ctx.maxIterations then false
  else if ctx.loopType == "for_each" then
    match ((outMap ctx.loopStartIdx).getD []).getD "_items_count" (Val.int 0) with
    | Val.int n => decide ((ctx.iteration : Int) < n)
    | _ => false
  else
    match nodeAt wf ctx.loopStartIdx with
    | .loopStart c _ => c
    | _ => true

/-- `_gather_loop_condition`: the value delivered by an inbound
`condition` edge whose source has produced that slot, else the start
node's own condition field. -/
def gatherLoopCondition (wf : Workflow) (loopStartIdx : Nat)
    (outMap : Nat → Option PyDict) : Bool :=
  let fromEdge : Option Bool := wf.edges.findSome? (fun e =>
    if e.target == loopStartIdx && e.target_slot == "condition" then
      match ((outMap e.source).getD []).get? e.source_slot with
      | Option.some v => Option.some v.truthy
      | Option.none => Option.none
    else Option.none)
  match fromEdge with
  | Option.some b => b
  | Option.none =>
    match nodeAt wf loopStartIdx with
    | .loopStart c _ => c
    | _ => true

/-- `_handle_loop_signal`: `Option.none` means the signal was not handled
and normal flow continues. -/
def handleLoopSignal (wf : Workflow) (sig : String) (nodeIdx : Nat)
    (s : EngineState) : Option EngineState :=
  if sig == "none" || sig == "" then Option.none
  else
    match getCurrentLoopCtx s nodeIdx with
    | Option.none => Option.none
    | Option.some ctx =>
      if sig == "break" then
        let s := skipLoopBody ctx s
        Option.some { s with loopStack := s.loopStack.erase ctx.loopStartIdx }
      else if sig == "continue" then
        let ctx := { ctx with iteration := ctx.iteration + 1 }
        let s := { s with loopCtxs := updMap s.loopCtxs ctx.loopStartIdx (Option.some ctx) }
        if evaluateLoopCondition wf ctx s.outputsMap then
          let s := resetLoopBody ctx s
          Option.some
            { s with
              completed := s.completed.erase ctx.loopStartIdx
              ready := insert ctx.loopStartIdx s.ready }
        else
          let s := skipLoopBody ctx s
          Option.some { s with loopStack := s.loopStack.erase ctx.loopStartIdx }
      else if sig == "end" || sig == "for_each_end" then
        let ctx := { ctx with iteration := ctx.iteration + 1 }
        let s := { s with loopCtxs := updMap s.loopCtxs ctx.loopStartIdx (Option.some ctx) }
        if evaluateLoopCondition wf ctx s.outputsMap then
          let s := resetLoopBody ctx s
          Option.some
            { s with
              completed := s.completed.erase ctx.loopStartIdx
              ready := insert ctx.loopStartIdx s.ready }
        else
          Option.some
            { s with
              loopCtxs := updMap s.loopCtxs ctx.loopStartIdx
                (Option.some { ctx with isActive := false })
              loopStack := s.loopStack.erase ctx.loopStartIdx }
      else Option.none

/-! ### Main loop (engine.py `_execute_workflow`) -/

/-- The `_loop_signal` marker of a result's outputs (`""` when absent). -/
def loopSignalOf (outputs : PyDict) : String :=
  match outputs.get? "_loop_signal" with
  | Option.some (Val.str s) => s
  | _ => ""

/-- Wait-signal handling for `wait_type == "timer"`: record the signal,
move the node out of completed into waiting, and spawn the timer task.
The node's `node_outputs` entry (stored just before) is left in place. -/
def handleWaitTimer (s : EngineState) (idx : Nat) (ws : WaitSig) : EngineState :=
  { s with
    waitSignals := updMap s.waitSignals idx (Option.some ws)
    completed := s.completed.erase idx
    waiting := insert idx s.waiting
    timerTasks := insert idx s.timerTasks }

/-- Wait-signal handling for `wait_type == "gate"`: as for timers but with
no background task. -/
def handleWaitGate (s : EngineState) (idx : Nat) (ws : WaitSig) : EngineState :=
  { s with
    waitSignals := updMap s.waitSignals idx (Option.some ws)
    completed := s.completed.erase idx
    waiting := insert idx s.waiting }

/-- Completion of the background timer task of a waiting node: the node
leaves waiting, the un-scoped timer keys and the node-scoped delay resume
flag are set in the shared store, and the node is re-queued into ready. -/
def fireTimer (s : EngineState) (idx : Nat) : EngineState :=
  let s := { s with timerTasks := s.timerTasks.erase idx, waiting := s.waiting.erase idx }
  let cnt := match s.waitSignals idx with
    | Option.some ws => ws.count
    | Option.none => Val.int 0
  let vars := (((s.vars.set "_timer_resume" (Val.bool true)).set "_timer_count" cnt).set
    "_timer_elapsed" (Val.int 0)).set (delayResumeKey idx) (Val.bool true)
  { s with vars := vars, ready := insert idx s.ready }

/-- Error text of a failed result as the f-string renders it. -/
def errText : Option String → String
  | Option.some m => m
  | Option.none => "None"

/-- Handling of one finished node execution: on success, store outputs and
either hand off to the loop subsystem, hand off to the suspension
subsystem, or propagate to dependents (with the route branch filter); on
failure, record the node, raise, and let the top-level handler mark the
run FAILED with the error — after which the main loop never runs again. -/
def handleCompletion (wf : Workflow) (s : EngineState) (idx : Nat)
    (res : NodeResult) : EngineState :=
  let s := { s with running := s.running.erase idx }
  if res.success then
    let s :=
      { s with
        completed := insert idx s.completed
        outputsMap := updMap s.outputsMap idx (Option.some res.outputs) }
    let deps := buildDependencies (activeEdges wf)
    let propagate : EngineState → EngineState := fun s =>
      match res.nextTarget with
      | Option.some t =>
        let (s, allowed) := routeShortCircuit (activeEdges wf) idx t s
        propagateDependents deps allowed s
      | Option.none => propagateDependents deps (buildDependents (activeEdges wf) idx) s
    let sig := loopSignalOf res.outputs
    match (if sig ≠ "" then handleLoopSignal wf sig idx s else Option.none) with
    | Option.some s' => recheckPending deps s'
    | Option.none =>
      match res.waitSignal with
      | Option.some ws =>
        if ws.waitType == "timer" then handleWaitTimer s idx ws
        else if ws.waitType == "gate" then handleWaitGate s idx ws
        else propagate s
      | Option.none => propagate s
  else
    { s with
      failedNodes := s.failedNodes ++ [idx]
      status := RunStatus.failed
      error := Option.some ("Node " ++ natRepr idx ++ " failed: " ++ errText res.error) }

/-- Move a node from ready to running, gather its inputs, execute it and
handle the result.  `_gather_inputs` runs inside the try of
`_execute_node`, so an exception it raises (the coercion's `TypeError`)
becomes a failed result for the node, without the executor running. -/
def execPhase (wf : Workflow) (s : EngineState) (idx : Nat) : EngineState :=
  let s :=
    { s with
      ready := s.ready.erase idx
      running := insert idx s.running
      execLog := s.execLog ++ [idx] }
  match gatherInputs wf idx s.outputsMap with
  | Except.error e =>
    handleCompletion wf s idx
      { outputs := [], success := false, error := Option.some e }
  | Except.ok inputs =>
    let (res, vars') := executeNode (nodeAt wf idx) inputs s.vars idx
    handleCompletion wf { s with vars := vars' } idx res

/-- Push a loop start onto the loop stack unless already there. -/
def pushStackIfAbsent (s : EngineState) (idx : Nat) : EngineState :=
  if idx ∈ s.loopStack then s else { s with loopStack := s.loopStack ++ [idx] }

/-- Launch handling for one ready node, including the loop-start
pre-handling: inject the iteration counter; on the first (iteration-0)
visit evaluate the gathered condition and, when false, skip the entire
loop without executing the start node. -/
def launchNode (wf : Workflow) (s : EngineState) (idx : Nat) : EngineState :=
  let node := nodeAt wf idx
  if node.isLoopStart then
    match s.loopCtxs idx with
    | Option.some ctx =>
      let s := { s with vars := s.vars.set "_loop_iteration" (Val.int ctx.iteration) }
      if ctx.iteration = 0 then
        if gatherLoopCondition wf idx s.outputsMap then
          execPhase wf (pushStackIfAbsent s idx) idx
        else
          let s := skipLoopBody ctx s
          { s with ready := s.ready.erase idx, completed := insert idx s.completed }
      else execPhase wf (pushStackIfAbsent s idx) idx
    | Option.none => execPhase wf s idx
  else execPhase wf s idx

/-- Deterministic pick of the least index in a set (bounded search). -/
def pickMin (bound : Nat) (t : Finset Nat) : Option Nat :=
  (List.range bound).find? (fun i => decide (i ∈ t))

/-- One determinised round of the main loop: process the least ready node;
when no node is ready, let the oldest outstanding timer task finish (the
scheduler idles until a background task completes); when nothing is ready,
running or outstanding, the run completes.  A non-running state is final. -/
def step (wf : Workflow) (s : EngineState) : EngineState :=
  if s.status ≠ RunStatus.running then s
  else
    match pickMin wf.nodes.length s.ready with
    | Option.some idx => launchNode wf s idx
    | Option.none =>
      match pickMin wf.nodes.length s.timerTasks with
      | Option.some idx => fireTimer s idx
      | Option.none =>
        if s.ready = ∅ ∧ s.running = ∅ ∧ s.timerTasks = ∅ then
          { s with status := RunStatus.completedOk }
        else s

/-- Iterated stepping. -/
def stepN (wf : Workflow) : Nat → EngineState → EngineState
  | 0, s => s
  | n + 1, s => stepN wf n (step wf s)

/-- Initial state of `_execute_workflow`: flow nodes pending, non-flow
nodes pre-completed, loop contexts detected, ready seeded with the
dependency-free pending nodes, and the variable store holding the initial
run data. -/
def initState (wf : Workflow) (initialData : PyDict) : EngineState :=
  let flowSet := ((List.range wf.nodes.length).filter
    (fun i => (nodeAt wf i).isFlow)).foldl (fun t i => insert i t) ∅
  let nonFlowSet := ((List.range wf.nodes.length).filter
    (fun i => !(nodeAt wf i).isFlow)).foldl (fun t i => insert i t) ∅
  let deps := buildDependencies (activeEdges wf)
  let seeded := seedReady deps flowSet ∅
  { pending := seeded.1, ready := seeded.2, running := ∅, waiting := ∅,
    completed := nonFlowSet, outputsMap := fun _ => Option.none, vars := initialData,
    loopCtxs := detectLoopStructures wf (activeEdges wf),
    waitSignals := fun _ => Option.none }

/-! ### Workflow validation (engine.py `validate_workflow`, `start_workflow`) -/

/-- Result dict of `validate_workflow`. -/
structure ValidationResult where
  valid : Bool
  errors : List String
  warnings : List String

/-- Number of nodes with the given type tag. -/
def countTag (wf : Workflow) (tag : String) : Nat :=
  (wf.nodes.filter (fun n => n.typeTag == tag)).length

/-- Node indices mentioned by any edge (as source or target). -/
def connectedNodes (wf : Workflow) : Finset Nat :=
  wf.edges.foldl (fun s e => insert e.target (insert e.source s)) ∅

/-- Flow-node indices not mentioned by any edge. -/
def disconnectedFlowNodes (wf : Workflow) : List Nat :=
  (List.range wf.nodes.length).filter
    (fun i => (nodeAt wf i).isFlow && decide (i ∉ connectedNodes wf))

/-- Embedding of `validate_workflow`: more than one Start or End node is an
error; zero of either is only a warning, as are disconnected flow nodes;
`valid` holds exactly when the error list is empty. -/
def validateWorkflow (wf : Workflow) : ValidationResult :=
  let startCount := countTag wf "start_flow"
  let endCount := countTag wf "end_flow"
  let errors :=
    (if startCount = 0 then []
     else if startCount > 1 then
       ["Workflow can only have one Start node (found " ++ natRepr startCount ++ ")"]
     else []) ++
    (if endCount = 0 then []
     else if endCount > 1 then
       ["Workflow can only have one End node (found " ++ natRepr endCount ++ ")"]
     else [])
  let warnings :=
    (if startCount = 0 then
       ["No Start node — execution begins from flow nodes with no incoming edges"]
     else []) ++
    (if endCount = 0 then
       ["No End node — execution halts when no more flow nodes are ready"]
     else []) ++
    (if (disconnectedFlowNodes wf).length > 0 then
       [natRepr (disconnectedFlowNodes wf).length ++ " workflow node(s) are not connected"]
     else [])
  { valid := errors.isEmpty, errors := errors, warnings := warnings }

/-- Embedding of `start_workflow` up to the creation of the execution:
validation runs first and an invalid workflow raises `ValueError` before
any execution state exists; otherwise the run is created under the given
(externally generated) execution id. -/
def startWorkflow (wf : Workflow) (execId : String) : Except String String :=
  let validation := validateWorkflow wf
  if !validation.valid then
    Except.error ("Invalid workflow: " ++ String.intercalate "; " validation.errors)
  else
    Except.ok execId

/-! ### Digit-list valuation (inverse of `natDigits`, proof-side only) -/

/-- Valuation of a little-endian digit list. -/
def undigits : List Nat → Nat
  | [] => 0
  | d :: ds => d + 10 * undigits ds

/-! ### Concrete example workflows -/

/-- Start → plain loop (condition true, max_iter 3) around one transform →
End, with the loop-back edge excluded from dependencies. -/
def wfLoopThree : Workflow :=
  { nodes := [NodeDef.startFlow, NodeDef.loopStart true 3,
      NodeDef.transform (Except.ok (Val.str "x")), NodeDef.loopEnd, NodeDef.endFlow],
    edges := [
      { source := 0, target := 1, source_slot := "flow_out", target_slot := "flow_in" },
      { source := 1, target := 2, source_slot := "flow_out", target_slot := "flow_in" },
      { source := 2, target := 3, source_slot := "output", target_slot := "input" },
      { source := 3, target := 4, source_slot := "output", target_slot := "flow_in" },
      { source := 3, target := 1, source_slot := "output", target_slot := "flow_in",
        loop := true }] }

/-- Start → transform producing a payload → delay 50ms → End. -/
def wfDelayRun : Workflow :=
  { nodes := [NodeDef.startFlow, NodeDef.transform (Except.ok (Val.str "payload")),
      NodeDef.delay 50, NodeDef.endFlow],
    edges := [
      { source := 0, target := 1, source_slot := "flow_out", target_slot := "flow_in" },
      { source := 1, target := 2, source_slot := "output", target_slot := "input" },
      { source := 2, target := 3, source_slot := "output", target_slot := "flow_in" }] }

/-- Start → transform → gate; with the gate's node-scoped accumulator
pre-seeded (via initial run data) to a non-list value, the gate's execute
raises at `accumulated.append`. -/
def wfGateFail : Workflow :=
  { nodes := [NodeDef.startFlow, NodeDef.transform (Except.ok (Val.str "x")),
      NodeDef.gate 3 true],
    edges := [
      { source := 0, target := 1, source_slot := "flow_out", target_slot := "flow_in" },
      { source := 1, target := 2, source_slot := "output", target_slot := "input" }] }

/-- Start → transform producing "a" → route with branches a/b → two
transforms (the a-branch and the b-branch) → End. -/
def wfRouteAB : Workflow :=
  { nodes := [NodeDef.startFlow, NodeDef.transform (Except.ok (Val.str "a")),
      NodeDef.route ["a", "b"], NodeDef.transform (Except.ok (Val.str "tookA")),
      NodeDef.transform (Except.ok (Val.str "tookB")), NodeDef.endFlow],
    edges := [
      { source := 0, target := 1, source_slot := "flow_out", target_slot := "flow_in" },
      { source := 1, target := 2, source_slot := "output", target_slot := "target" },
      { source := 2, target := 3, source_slot := "output.a", target_slot := "input" },
      { source := 2, target := 4, source_slot := "output.b", target_slot := "input" },
      { source := 3, target := 5, source_slot := "output", target_slot := "flow_in" },
      { source := 4, target := 5, source_slot := "output", target_slot := "flow_in" }] }

/-- Start → loop whose body holds a delay and a (dead-end) break: the
break fires while the delay is suspended, so `_skip_loop_body` marks a
still-waiting node completed. -/
def wfBreakWait : Workflow :=
  { nodes := [NodeDef.startFlow, NodeDef.loopStart true 5, NodeDef.delay 1000,
      NodeDef.breakFlow, NodeDef.loopEnd, NodeDef.endFlow],
    edges := [
      { source := 0, target := 1, source_slot := "flow_out", target_slot := "flow_in" },
      { source := 1, target := 2, source_slot := "flow_out", target_slot := "input" },
      { source := 1, target := 3, source_slot := "flow_out", target_slot := "flow_in" },
      { source := 2, target := 4, source_slot := "output", target_slot := "input" },
      { source := 4, target := 5, source_slot := "output", target_slot := "flow_in" },
      { source := 4, target := 1, source_slot := "output", target_slot := "flow_in",
        loop := true }] }

/-- Start → transform producing a dict → transform whose `context` slot
(annotated `Optional[Dict[str, Any]]` in schema.py) receives that dict by
edge → End: gathering node 2's inputs makes the coercion's `isinstance`
raise, failing the node and the run. -/
def wfGenericAnn : Workflow :=
  { nodes := [NodeDef.startFlow,
      NodeDef.transform (Except.ok (Val.dict [("k", Val.int 1)])),
      NodeDef.transform (Except.ok (Val.int 0)), NodeDef.endFlow],
    edges := [
      { source := 0, target := 1, source_slot := "flow_out", target_slot := "flow_in" },
      { source := 1, target := 2, source_slot := "output", target_slot := "context" },
      { source := 2, target := 3, source_slot := "output", target_slot := "flow_in" }] }

/-! ## Proofs

Helper lemmas first, then one theorem per claim (with witnesses and
counterexamples as required). -/

theorem undigits_natDigitsAux : ∀ f n, n ≤ f → undigits (natDigitsAux f n) = n := by
  intro f
  induction f with
  | zero =>
    intro n h
    have : n = 0 := Nat.le_zero.mp h
    subst this
    simp [natDigitsAux, undigits]
  | succ f ih =>
    intro n h
    by_cases h0 : n = 0
    · subst h0; simp [natDigitsAux, undigits]
    · have hdiv : n / 10 ≤ f := by
        have hlt : n / 10 < n := Nat.div_lt_self (Nat.pos_of_ne_zero h0) (by norm_num)
        omega
      simp only [natDigitsAux, h0, if_false, undigits, ih _ hdiv]
      omega

theorem natDigits_bound : ∀ f n d, d ∈ natDigitsAux f n → d < 10 := by
  intro f
  induction f with
  | zero => intro n d hd; simp [natDigitsAux] at hd
  | succ f ih =>
    intro n d hd
    by_cases h0 : n = 0
    · subst h0; simp [natDigitsAux] at hd
    · simp only [natDigitsAux, h0, if_false, List.mem_cons] at hd
      rcases hd with h | h
      · subst h; exact Nat.mod_lt _ (by norm_num)
      · exact ih _ _ h

theorem digitToChar_inj :
    ∀ d, d < 10 → ∀ e, e < 10 → digitToChar d = digitToChar e → d = e := by decide

theorem map_digitToChar_inj :
    ∀ l₁ l₂ : List Nat, (∀ d ∈ l₁, d < 10) → (∀ d ∈ l₂, d < 10) →
      l₁.map digitToChar = l₂.map digitToChar → l₁ = l₂ := by
  intro l₁
  induction l₁ with
  | nil => intro l₂ _ _ h; cases l₂ <;> simp_all
  | cons a t ih =>
    intro l₂ h₁ h₂ h
    cases l₂ with
    | nil => simp at h
    | cons b t' =>
      simp only [List.map_cons, List.cons.injEq] at h
      have ha : a = b := digitToChar_inj a (h₁ a (by simp)) b (h₂ b (by simp)) h.1
      have ht : t = t' := ih t' (fun d hd => h₁ d (by simp [hd]))
        (fun d hd => h₂ d (by simp [hd])) h.2
      rw [ha, ht]

theorem natDigits_inj {m n : Nat} (h : natDigits m = natDigits n) : m = n := by
  have hm := undigits_natDigitsAux m m le_rfl
  have hn := undigits_natDigitsAux n n le_rfl
  rw [natDigits, natDigits] at h
  rw [← hm, ← hn, h]

theorem natDigits_eq_nil_iff (n : Nat) : natDigits n = [] ↔ n = 0 := by
  constructor
  · intro h
    have := undigits_natDigitsAux n n le_rfl
    rw [natDigits] at h
    rw [h] at this
    simpa [undigits] using this.symm
  · intro h; subst h; simp [natDigits, natDigitsAux]

theorem natRepr_injective : Function.Injective natRepr := by
  intro m n h
  by_cases hm : m = 0 <;> by_cases hn : n = 0
  · rw [hm, hn]
  · exfalso
    rw [natRepr, natRepr, if_pos hm, if_neg hn] at h
    have hdata : ("0" : String).data = ((natDigits n).map digitToChar).reverse :=
      congrArg String.data h
    have h0 : ['0'] = ((natDigits n).map digitToChar).reverse := hdata
    have hrev : ((natDigits n).map digitToChar) = ['0'] := by
      have := congrArg List.reverse h0
      simpa using this.symm
    cases hds : natDigits n with
    | nil => rw [hds] at hrev; simp at hrev
    | cons d ds =>
      rw [hds] at hrev
      cases ds with
      | nil =>
        simp only [List.map_cons, List.map_nil, List.cons.injEq] at hrev
        have hd10 : d < 10 := natDigits_bound n n d (by rw [← natDigits]; simp [hds])
        have : d = 0 := digitToChar_inj d hd10 0 (by norm_num) (by
          have : digitToChar 0 = '0' := by decide
          rw [this]; exact hrev.1)
        subst this
        have := undigits_natDigitsAux n n le_rfl
        rw [natDigits] at hds
        rw [hds] at this
        simp [undigits] at this
        exact hn this.symm
      | cons d' ds' => simp at hrev
  · exfalso
    rw [natRepr, natRepr, if_neg hm, if_pos hn] at h
    have hdata : ((natDigits m).map digitToChar).reverse = ("0" : String).data :=
      congrArg String.data h
    have h0 : ((natDigits m).map digitToChar).reverse = ['0'] := hdata
    have hrev : ((natDigits m).map digitToChar) = ['0'] := by
      have := congrArg List.reverse h0
      simpa using this
    cases hds : natDigits m with
    | nil => rw [hds] at hrev; simp at hrev
    | cons d ds =>
      rw [hds] at hrev
      cases ds with
      | nil =>
        simp only [List.map_cons, List.map_nil, List.cons.injEq] at hrev
        have hd10 : d < 10 := natDigits_bound m m d (by rw [← natDigits]; simp [hds])
        have : d = 0 := digitToChar_inj d hd10 0 (by norm_num) (by
          have h00 : digitToChar 0 = '0' := by decide
          rw [h00]; exact hrev.1)
        subst this
        have := undigits_natDigitsAux m m le_rfl
        rw [natDigits] at hds
        rw [hds] at this
        simp [undigits] at this
        exact hm this.symm
      | cons d' ds' => simp at hrev
  · rw [natRepr, natRepr, if_neg hm, if_neg hn] at h
    have hdata := congrArg String.data h
    have hrev : ((natDigits m).map digitToChar).reverse =
        ((natDigits n).map digitToChar).reverse := hdata
    have hmap := congrArg List.reverse hrev
    simp only [List.reverse_reverse] at hmap
    have hdig := map_digitToChar_inj (natDigits m) (natDigits n)
      (fun d hd => natDigits_bound m m d hd) (fun d hd => natDigits_bound n n d hd) hmap
    exact natDigits_inj hdig

theorem string_data_append (a b : String) : (a ++ b).data = a.data ++ b.data := rfl

theorem string_eq_of_data {a b : String} (h : a.data = b.data) : a = b := by
  cases a; cases b; exact congrArg String.mk h

theorem affix_key_inj (pre suf : String) {x y : String}
    (h : pre ++ x ++ suf = pre ++ y ++ suf) : x = y := by
  have hd := congrArg String.data h
  rw [string_data_append, string_data_append, string_data_append, string_data_append] at hd
  exact string_eq_of_data (List.append_cancel_left (List.append_cancel_right hd))

theorem gateAccKey_rev_head (i : Nat) :
    ((gateAccKey i).data.reverse).head? = Option.some 'd' := by
  show ((("_gate_" ++ natRepr i) ++ "_accumulated").data.reverse).head? = _
  rw [string_data_append, List.reverse_append]
  rfl

theorem gateCountKey_rev_head (i : Nat) :
    ((gateCountKey i).data.reverse).head? = Option.some 't' := by
  show ((("_gate_" ++ natRepr i) ++ "_count").data.reverse).head? = _
  rw [string_data_append, List.reverse_append]
  rfl

theorem gateAccKey_second (i : Nat) : ((gateAccKey i).data)[1]? = Option.some 'g' := by
  show ((("_gate_" ++ natRepr i) ++ "_accumulated").data)[1]? = _
  rw [string_data_append, string_data_append]
  rw [List.getElem?_append_left, List.getElem?_append_left]
  · rfl
  · show 1 < ("_gate_".data).length
    decide
  · rw [List.length_append]
    have h6 : ("_gate_".data).length = 6 := rfl
    omega

theorem gateCountKey_second (i : Nat) : ((gateCountKey i).data)[1]? = Option.some 'g' := by
  show ((("_gate_" ++ natRepr i) ++ "_count").data)[1]? = _
  rw [string_data_append, string_data_append]
  rw [List.getElem?_append_left, List.getElem?_append_left]
  · rfl
  · show 1 < ("_gate_".data).length
    decide
  · rw [List.length_append]
    have h6 : ("_gate_".data).length = 6 := rfl
    omega

theorem delayResumeKey_second (i : Nat) :
    ((delayResumeKey i).data)[1]? = Option.some 'd' := by
  show ((("_delay_" ++ natRepr i) ++ "_resume").data)[1]? = _
  rw [string_data_append, string_data_append]
  rw [List.getElem?_append_left, List.getElem?_append_left]
  · rfl
  · show 1 < ("_delay_".data).length
    decide
  · rw [List.length_append]
    have h7 : ("_delay_".data).length = 7 := rfl
    omega

theorem gateAccKey_inj {i j : Nat} (h : gateAccKey i = gateAccKey j) : i = j :=
  natRepr_injective (affix_key_inj "_gate_" "_accumulated" h)

theorem gateCountKey_inj {i j : Nat} (h : gateCountKey i = gateCountKey j) : i = j :=
  natRepr_injective (affix_key_inj "_gate_" "_count" h)

theorem delayResumeKey_inj {i j : Nat} (h : delayResumeKey i = delayResumeKey j) : i = j :=
  natRepr_injective (affix_key_inj "_delay_" "_resume" h)

theorem gateAccKey_ne_gateCountKey (i j : Nat) : gateAccKey i ≠ gateCountKey j := by
  intro h
  have h1 := gateAccKey_rev_head i
  rw [h, gateCountKey_rev_head j] at h1
  cases h1

theorem gateAccKey_ne_delayResumeKey (i j : Nat) : gateAccKey i ≠ delayResumeKey j := by
  intro h
  have h1 := gateAccKey_second i
  rw [h, delayResumeKey_second j] at h1
  cases h1

theorem gateCountKey_ne_delayResumeKey (i j : Nat) : gateCountKey i ≠ delayResumeKey j := by
  intro h
  have h1 := gateCountKey_second i
  rw [h, delayResumeKey_second j] at h1
  cases h1

/-- C9 (counterexample): the claim that *every* per-node suspension/loop
key is namespaced by the writing node's index is false at concrete inputs:
the loop iteration counter written at loop-start launch is the single
shared key `_loop_iteration` for distinct loop-start nodes 1 and 3, and
the engine's timer-resume handler writes the shared `_timer_resume` key
for distinct nodes 1 and 2. -/
theorem loop_timer_keys_shared_counterexample :
    loopIterationKey 1 = loopIterationKey 3 ∧ (1 : Nat) ≠ 3 ∧
    timerResumeKey 1 = timerResumeKey 2 ∧ (1 : Nat) ≠ 2 :=
  ⟨rfl, by decide, rfl, by decide⟩

/-- C9 (amended): the gate accumulator/count keys and the delay resume
flag *are* namespaced by the writing node's index — for distinct node
indices the six pairwise combinations of `_gate_<i>_accumulated`,
`_gate_<i>_count` and `_delay_<i>_resume` never collide — but the loop
iteration counter (`_loop_iteration`) and the engine's extra timer-resume
keys (`_timer_resume`/`_timer_count`/`_timer_elapsed`) are shared across
nodes. -/
theorem gate_delay_keys_node_scoped :
    ∀ i j : Nat, i ≠ j →
      gateAccKey i ≠ gateAccKey j ∧ gateCountKey i ≠ gateCountKey j ∧
      delayResumeKey i ≠ delayResumeKey j ∧ gateAccKey i ≠ gateCountKey j ∧
      gateAccKey i ≠ delayResumeKey j ∧ gateCountKey i ≠ delayResumeKey j := by
  intro i j hij
  exact ⟨fun h => hij (gateAccKey_inj h), fun h => hij (gateCountKey_inj h),
    fun h => hij (delayResumeKey_inj h), gateAccKey_ne_gateCountKey i j,
    gateAccKey_ne_delayResumeKey i j, gateCountKey_ne_delayResumeKey i j⟩

/-- C9 (witness): the amended statement applied at nodes 1 and 2. -/
theorem gate_delay_keys_node_scoped_witness :
    (1 : Nat) ≠ 2 ∧
      (gateAccKey 1 ≠ gateAccKey 2 ∧ gateCountKey 1 ≠ gateCountKey 2 ∧
       delayResumeKey 1 ≠ delayResumeKey 2 ∧ gateAccKey 1 ≠ gateCountKey 2 ∧
       gateAccKey 1 ≠ delayResumeKey 2 ∧ gateCountKey 1 ≠ delayResumeKey 2) :=
  ⟨by decide, gate_delay_keys_node_scoped 1 2 (by decide)⟩

/-- C10: REFUTED — edge-value coercion is not total, against the
function's own docstring ("Only coerces between primitive scalar types;
leaves complex/Any types unchanged").  The `isinstance(value, core)` check
sits *outside* the `try` of `_coerce_edge_value`, so for a field whose
unwrapped annotation is a subscripted generic — the gate's
`accumulated : List[Any]`, the transform's
`context : Optional[Dict[str, Any]]`, the route's
`output : Union[List[str], Dict[str, Any]]` — every non-`None` incoming
value makes the function raise `TypeError` instead of returning the value
unchanged.  Delivered through an edge into such a slot, the raise aborts
`_gather_inputs` and fails the node and the run at the `_execute_node`
boundary (workflow `wfGenericAnn`).  The caught-conversion-failure and
bool-to-int identity parts of the claim do hold on primitive-annotated
fields, as the remaining conjuncts evaluate. -/
theorem coerce_edge_value_not_total :
    coerceEdgeValue (Val.list [Val.int 1])
        (fieldAnn (NodeDef.gate 3 true) "accumulated") =
      Except.error subscriptedGenericsMsg
  ∧ coerceEdgeValue (Val.dict [("k", Val.int 1)])
        (fieldAnn (NodeDef.transform (Except.ok (Val.int 0))) "context") =
      Except.error subscriptedGenericsMsg
  ∧ coerceEdgeValue (Val.str "abc") PyAnn.intA = Except.ok (Val.str "abc")
  ∧ coerceEdgeValue (Val.str "abc") PyAnn.floatA = Except.ok (Val.str "abc")
  ∧ coerceEdgeValue (Val.bool true) (PyAnn.optionalA PyAnn.intA) =
      Except.ok (Val.bool true)
  ∧ coerceEdgeValue (Val.list []) PyAnn.otherA = Except.ok (Val.list [])
  ∧ gatherInputs wfGenericAnn 2
        (stepN wfGenericAnn 2 (initState wfGenericAnn [])).outputsMap =
      Except.error subscriptedGenericsMsg
  ∧ (stepN wfGenericAnn 4 (initState wfGenericAnn [])).status = RunStatus.failed
  ∧ (stepN wfGenericAnn 4 (initState wfGenericAnn [])).error =
      Option.some ("Node 2 failed: " ++ subscriptedGenericsMsg) :=
  ⟨rfl, rfl, rfl, rfl, rfl, rfl, rfl, rfl, rfl⟩

theorem mem_foldl_insert_target (l : List Edge) (init : Finset Nat) (j : Nat) :
    j ∈ l.foldl (fun s e => insert e.target s) init ↔
      j ∈ init ∨ ∃ e ∈ l, e.target = j := by
  induction l generalizing init with
  | nil => simp
  | cons e t ih =>
    simp only [List.foldl_cons, ih, Finset.mem_insert, List.mem_cons]
    constructor
    · rintro (⟨h | h⟩ | ⟨e', he', hj⟩)
      · exact Or.inr ⟨e, Or.inl rfl, h.symm⟩
      · exact Or.inl h
      · exact Or.inr ⟨e', Or.inr he', hj⟩
    · rintro (h | ⟨e', he' | he', hj⟩)
      · exact Or.inl (Or.inr h)
      · subst he'; exact Or.inl (Or.inl hj.symm)
      · exact Or.inr ⟨e', he', hj⟩

/-- C1: a node index enters `ready` only with its full non-loop-back
dependency set inside `completed`: the initial seeding moves exactly the
pending nodes with an empty dependency set into ready, and both
dependency-propagation steps (after a normal completion, and the pending
re-check after a loop signal) release a node into ready only when its
dependency set is a subset of `completed`. -/
theorem ready_release_requires_completed_deps :
    (∀ (deps : Nat → Finset Nat) (pending ready : Finset Nat) (i : Nat),
        i ∈ (seedReady deps pending ready).2 → i ∈ ready ∨ deps i = ∅)
  ∧ (∀ (deps : Nat → Finset Nat) (allowed : Finset Nat) (s : EngineState) (i : Nat),
        i ∈ (propagateDependents deps allowed s).ready →
          i ∈ s.ready ∨ deps i ⊆ s.completed)
  ∧ (∀ (deps : Nat → Finset Nat) (s : EngineState) (i : Nat),
        i ∈ (recheckPending deps s).ready → i ∈ s.ready ∨ deps i ⊆ s.completed) := by
  refine ⟨?_, ?_, ?_⟩
  · intro deps pending ready i hi
    simp only [seedReady, Finset.mem_union, Finset.mem_filter] at hi
    rcases hi with h | ⟨_, h⟩
    · exact Or.inl h
    · exact Or.inr h
  · intro deps allowed s i hi
    simp only [propagateDependents, Finset.mem_union, Finset.mem_filter] at hi
    rcases hi with h | ⟨_, _, _, h⟩
    · exact Or.inl h
    · exact Or.inr h
  · intro deps s i hi
    simp only [recheckPending, Finset.mem_union, Finset.mem_filter] at hi
    rcases hi with h | ⟨_, h⟩
    · exact Or.inl h
    · exact Or.inr h

/-- C1 (witness): the three release steps applied at concrete inputs. -/
theorem ready_release_requires_completed_deps_witness :
    ((0 : Nat) ∈ (∅ : Finset Nat) ∨ (fun _ : Nat => (∅ : Finset Nat)) 0 = ∅)
  ∧ ((0 : Nat) ∈ (initState wfDelayRun []).ready ∨
      buildDependencies (activeEdges wfDelayRun) 0 ⊆ (initState wfDelayRun []).completed)
  ∧ ((0 : Nat) ∈ (initState wfDelayRun []).ready ∨
      buildDependencies (activeEdges wfDelayRun) 0 ⊆ (initState wfDelayRun []).completed) :=
  ⟨ready_release_requires_completed_deps.1 (fun _ => ∅) {0} ∅ 0 (by decide),
   ready_release_requires_completed_deps.2.1 (buildDependencies (activeEdges wfDelayRun))
     {1} (initState wfDelayRun []) 0 (by decide),
   ready_release_requires_completed_deps.2.2 (buildDependencies (activeEdges wfDelayRun))
     (initState wfDelayRun []) 0 (by decide)⟩

/-- C4: with a route result carrying `next_target = t`, only immediate
dependents reached by a non-loop-back edge whose source slot is `t` or
whose dotted suffix is `t` can be released into ready (the match-target
set is exactly the set of such edge targets); every other immediate
dependent that is pending is short-circuited to completed with empty
outputs and is not released; and in the concrete a/b route workflow the
b-branch node 4 is never executed — the finished run completed it with
empty outputs and it never entered the execution log. -/
theorem route_branch_filter :
    (∀ (edges : List Edge) (idx : Nat) (t : String) (j : Nat),
        j ∈ routeMatchTargets edges idx t ↔
          ∃ e ∈ edges, e.source = idx ∧ e.loop = false ∧ e.target = j ∧
            (e.source_slot = t ∨ lastDotComponent e.source_slot = t))
  ∧ (∀ (deps : Nat → Finset Nat) (edges : List Edge) (idx : Nat) (t : String)
        (s : EngineState) (j : Nat),
        j ∈ (propagateDependents deps (routeShortCircuit edges idx t s).2
          (routeShortCircuit edges idx t s).1).ready →
          j ∈ s.ready ∨ j ∈ routeMatchTargets edges idx t)
  ∧ (∀ (deps : Nat → Finset Nat) (edges : List Edge) (idx : Nat) (t : String)
        (s : EngineState) (j : Nat),
        j ∈ routeSkipTargets edges idx t → j ∉ routeMatchTargets edges idx t →
        j ∈ s.pending → j ∉ s.ready →
        (j ∈ (propagateDependents deps (routeShortCircuit edges idx t s).2
            (routeShortCircuit edges idx t s).1).completed ∧
         (propagateDependents deps (routeShortCircuit edges idx t s).2
            (routeShortCircuit edges idx t s).1).outputsMap j = Option.some [] ∧
         j ∉ (propagateDependents deps (routeShortCircuit edges idx t s).2
            (routeShortCircuit edges idx t s).1).ready))
  ∧ ((stepN wfRouteAB 12 (initState wfRouteAB [])).execLog.count 4 = 0 ∧
     (stepN wfRouteAB 12 (initState wfRouteAB [])).outputsMap 4 = Option.some [] ∧
     4 ∈ (stepN wfRouteAB 12 (initState wfRouteAB [])).completed ∧
     (stepN wfRouteAB 12 (initState wfRouteAB [])).status = RunStatus.completedOk ∧
     (stepN wfRouteAB 12 (initState wfRouteAB [])).execLog.count 3 = 1) := by
  refine ⟨?_, ?_, ?_, ?_⟩
  · intro edges idx t j
    simp only [routeMatchTargets, mem_foldl_insert_target, Finset.not_mem_empty, false_or]
    constructor
    · rintro ⟨e, he, hj⟩
      rw [List.mem_filter] at he
      obtain ⟨hel, hcond⟩ := he
      simp only [Bool.and_eq_true, Bool.or_eq_true, beq_iff_eq, Bool.not_eq_true'] at hcond
      exact ⟨e, hel, hcond.1.1, hcond.1.2, hj, hcond.2⟩
    · rintro ⟨e, hel, hsrc, hloop, htgt, hslot⟩
      refine ⟨e, List.mem_filter.mpr ⟨hel, ?_⟩, htgt⟩
      simp only [Bool.and_eq_true, Bool.or_eq_true, beq_iff_eq, Bool.not_eq_true']
      exact ⟨⟨hsrc, hloop⟩, hslot⟩
  · intro deps edges idx t s j hj
    simp only [propagateDependents, Finset.mem_union, Finset.mem_filter] at hj
    rcases hj with hj | ⟨hall, _⟩
    · exact Or.inl hj
    · exact Or.inr hall
  · intro deps edges idx t s j hskip hnmatch hpend hnready
    have hjS : j ∈ (routeSkipTargets edges idx t \ routeMatchTargets edges idx t) ∩ s.pending :=
      Finset.mem_inter.mpr ⟨Finset.mem_sdiff.mpr ⟨hskip, hnmatch⟩, hpend⟩
    refine ⟨?_, ?_, ?_⟩
    · show j ∈ s.completed ∪ _
      exact Finset.mem_union_right _ hjS
    · show (if j ∈ (routeSkipTargets edges idx t \ routeMatchTargets edges idx t) ∩ s.pending
          then Option.some [] else s.outputsMap j) = Option.some []
      rw [if_pos hjS]
    · intro hmem
      simp only [propagateDependents, Finset.mem_union, Finset.mem_filter] at hmem
      rcases hmem with hmem | ⟨_, hnc, _⟩
      · exact hnready hmem
      · exact hnc (Finset.mem_union_right _ hjS)
  · exact ⟨by decide, rfl, by decide, by decide, by decide⟩

/-- C4 (witness): the branch-filter facts applied to the concrete a/b
route workflow — node 4 (the b-branch) is characterised by the match-set
description, and short-circuiting the b branch from the initial state
marks node 4 completed with empty outputs and not ready. -/
theorem route_branch_filter_witness :
    (4 ∈ routeMatchTargets (activeEdges wfRouteAB) 2 "b" ↔
      ∃ e ∈ activeEdges wfRouteAB, e.source = 2 ∧ e.loop = false ∧ e.target = 4 ∧
        (e.source_slot = "b" ∨ lastDotComponent e.source_slot = "b"))
  ∧ (let s := routeShortCircuit (activeEdges wfRouteAB) 2 "a" (initState wfRouteAB []);
     let p := propagateDependents (buildDependencies (activeEdges wfRouteAB)) s.2 s.1;
     4 ∈ p.completed ∧ p.outputsMap 4 = Option.some [] ∧ 4 ∉ p.ready) :=
  ⟨route_branch_filter.1 (activeEdges wfRouteAB) 2 "b" 4,
   route_branch_filter.2.2.1 (buildDependencies (activeEdges wfRouteAB))
     (activeEdges wfRouteAB) 2 "a" (initState wfRouteAB []) 4
     (by decide) (by decide) (by decide) (by decide)⟩

/-- C5: in the concrete workflow with a plain loop (`condition = true`,
`max_iter = 3`, no break) around body node 2, the finished run executed
the body exactly 3 times; afterwards the loop's context has
`iteration = 3` and `is_active = false` (the full execution log shows the
three iterations and the post-loop End node). -/
theorem loop_three_iterations :
    (stepN wfLoopThree 15 (initState wfLoopThree [])).execLog.count 2 = 3
  ∧ ((stepN wfLoopThree 15 (initState wfLoopThree [])).loopCtxs 1).map LoopCtx.iteration =
      Option.some 3
  ∧ ((stepN wfLoopThree 15 (initState wfLoopThree [])).loopCtxs 1).map LoopCtx.isActive =
      Option.some false
  ∧ (stepN wfLoopThree 15 (initState wfLoopThree [])).status = RunStatus.completedOk
  ∧ (stepN wfLoopThree 15 (initState wfLoopThree [])).execLog = [0, 1, 2, 3, 1, 2, 3, 1, 2, 3, 4] :=
  ⟨by decide, by decide, by decide, by decide, by decide⟩

theorem PyDict.get?_set_self (m : PyDict) (k : String) (v : Val) :
    (m.set k v).get? k = Option.some v := by
  induction m with
  | nil => simp [PyDict.set, PyDict.get?, List.find?]
  | cons p t ih =>
    by_cases hp : p.1 = k
    · simp [PyDict.set, PyDict.get?, List.find?, hp]
    · have hp' : (p.1 == k) = false := beq_false_of_ne hp
      by_cases ht : List.any t (fun q => q.1 == k)
      · simp only [PyDict.set, List.any_cons, hp', Bool.false_or, ht, if_true,
          List.map_cons, if_neg hp]
        simp only [PyDict.set, ht, if_true] at ih
        simpa [PyDict.get?, List.find?, hp'] using ih
      · have ht' : List.any t (fun q => q.1 == k) = false := Bool.eq_false_iff.mpr ht
        simp only [PyDict.set, List.any_cons, hp', Bool.false_or, ht', if_false,
          List.cons_append]
        simp only [PyDict.set, ht', if_false] at ih
        simpa [PyDict.get?, List.find?, hp'] using ih

/-- C7: a delay node's first invocation (node-scoped resume flag unset)
returns a timer wait signal carrying the configured duration; the
wait-handling transition moves the node out of completed into waiting
(leaving its stored outputs in place) and registers a timer task; the
timer-completion transition sets the node-scoped resume flag and requeues
the node into ready; the second invocation passes its input through
unchanged, returns no wait signal and clears the flag.  The concrete
50ms-delay run exhibits each phase (the real-time sleep is abstracted to
the completion of the background task).  -/
theorem delay_timer_suspend_resume :
    (∀ (inputs vars : PyDict) (idx : Nat) (d : Int),
        (vars.getD (delayResumeKey idx) (Val.bool false)).truthy = false →
        (executeNode (NodeDef.delay d) inputs vars idx).1.waitSignal =
          Option.some
            { waitType := "timer"
              durationMs := (inputs.getNonNone "duration_ms").getD (Val.int d)
              count := Val.int 0
              maxCount := Option.some (Val.int 1) } ∧
        (executeNode (NodeDef.delay d) inputs vars idx).2 = vars)
  ∧ (∀ (s : EngineState) (idx : Nat) (ws : WaitSig),
        idx ∈ (handleWaitTimer s idx ws).waiting ∧
        idx ∉ (handleWaitTimer s idx ws).completed ∧
        idx ∈ (handleWaitTimer s idx ws).timerTasks ∧
        (handleWaitTimer s idx ws).running = s.running ∧
        (handleWaitTimer s idx ws).outputsMap = s.outputsMap)
  ∧ (∀ (s : EngineState) (idx : Nat),
        (fireTimer s idx).vars.get? (delayResumeKey idx) = Option.some (Val.bool true) ∧
        idx ∈ (fireTimer s idx).ready ∧ idx ∉ (fireTimer s idx).waiting)
  ∧ (∀ (inputs vars : PyDict) (idx : Nat) (d : Int),
        (vars.getD (delayResumeKey idx) (Val.bool false)).truthy = true →
        (executeNode (NodeDef.delay d) inputs vars idx).1.outputs.get? "output" =
          Option.some (inputs.getD "input" Val.none) ∧
        (executeNode (NodeDef.delay d) inputs vars idx).1.waitSignal = Option.none ∧
        (executeNode (NodeDef.delay d) inputs vars idx).2.get? (delayResumeKey idx) =
          Option.some (Val.bool false))
  ∧ (2 ∈ (stepN wfDelayRun 3 (initState wfDelayRun [])).waiting ∧
     2 ∉ (stepN wfDelayRun 3 (initState wfDelayRun [])).running ∧
     2 ∈ (stepN wfDelayRun 3 (initState wfDelayRun [])).timerTasks ∧
     ((stepN wfDelayRun 3 (initState wfDelayRun [])).waitSignals 2).map WaitSig.durationMs =
       Option.some (Val.int 50) ∧
     (stepN wfDelayRun 4 (initState wfDelayRun [])).vars.get? (delayResumeKey 2) =
       Option.some (Val.bool true) ∧
     2 ∈ (stepN wfDelayRun 4 (initState wfDelayRun [])).ready ∧
     ((stepN wfDelayRun 5 (initState wfDelayRun [])).outputsMap 2).bind
       (fun o => o.get? "output") = Option.some (Val.str "payload") ∧
     (stepN wfDelayRun 5 (initState wfDelayRun [])).vars.get? (delayResumeKey 2) =
       Option.some (Val.bool false) ∧
     (stepN wfDelayRun 10 (initState wfDelayRun [])).status = RunStatus.completedOk ∧
     (stepN wfDelayRun 10 (initState wfDelayRun [])).execLog = [0, 1, 2, 2, 3]) := by
  refine ⟨?_, ?_, ?_, ?_, ?_⟩
  · intro inputs vars idx d h
    simp [executeNode, execRaw, delayExecRaw, h]
  · intro s idx ws
    refine ⟨Finset.mem_insert_self _ _, ?_, Finset.mem_insert_self _ _, rfl, rfl⟩
    simp [handleWaitTimer]
  · intro s idx
    refine ⟨?_, Finset.mem_insert_self _ _, ?_⟩
    · exact PyDict.get?_set_self _ _ _
    · simp [fireTimer]
  · intro inputs vars idx d h
    refine ⟨?_, ?_, ?_⟩
    · simp only [executeNode, execRaw, delayExecRaw, h, if_true]
      exact PyDict.get?_set_self _ _ _
    · simp [executeNode, execRaw, delayExecRaw, h]
    · simp only [executeNode, execRaw, delayExecRaw, h, if_true]
      exact PyDict.get?_set_self _ _ _
  · exact ⟨by decide, by decide, by decide, rfl, rfl, by decide, rfl, rfl, by decide, by decide⟩

/-- C7 (witness): the delay-node facts applied at concrete inputs — a
fresh store arms the timer with the configured 50ms, firing the timer on
the initial delay-run state sets the flag and requeues the node, and a
store with the flag set passes the input through and clears it. -/
theorem delay_timer_suspend_resume_witness :
    ((executeNode (NodeDef.delay 50) [("duration_ms", Val.int 50)] [] 2).1.waitSignal =
        Option.some
          { waitType := "timer"
            durationMs := (PyDict.getNonNone [("duration_ms", Val.int 50)] "duration_ms").getD
              (Val.int 50)
            count := Val.int 0
            maxCount := Option.some (Val.int 1) } ∧
      (executeNode (NodeDef.delay 50) [("duration_ms", Val.int 50)] [] 2).2 = [])
  ∧ ((fireTimer (initState wfDelayRun []) 2).vars.get? (delayResumeKey 2) =
        Option.some (Val.bool true) ∧
      2 ∈ (fireTimer (initState wfDelayRun []) 2).ready ∧
      2 ∉ (fireTimer (initState wfDelayRun []) 2).waiting)
  ∧ ((executeNode (NodeDef.delay 50) [("input", Val.str "p")]
        [(delayResumeKey 2, Val.bool true)] 2).1.outputs.get? "output" =
        Option.some (PyDict.getD [("input", Val.str "p")] "input" Val.none) ∧
      (executeNode (NodeDef.delay 50) [("input", Val.str "p")]
        [(delayResumeKey 2, Val.bool true)] 2).1.waitSignal = Option.none ∧
      (executeNode (NodeDef.delay 50) [("input", Val.str "p")]
        [(delayResumeKey 2, Val.bool true)] 2).2.get? (delayResumeKey 2) =
        Option.some (Val.bool false)) :=
  ⟨delay_timer_suspend_resume.1 [("duration_ms", Val.int 50)] [] 2 50 (by decide),
   delay_timer_suspend_resume.2.2.1 (initState wfDelayRun []) 2,
   delay_timer_suspend_resume.2.2.2.1 [("input", Val.str "p")]
     [(delayResumeKey 2, Val.bool true)] 2 50 (by decide)⟩

theorem find?_map_set (t : List (String × Val)) (k k' : String) (v : Val) (h : k' ≠ k) :
    List.find? (fun q => q.1 == k') (t.map (fun p => if p.1 == k then (k, v) else p)) =
    List.find? (fun q => q.1 == k') t := by
  induction t with
  | nil => rfl
  | cons p t ih =>
    simp only [List.map_cons]
    by_cases hp : p.1 = k
    · have hb1 : (p.1 == k) = true := beq_iff_eq.mpr hp
      have hb2 : (k == k') = false := beq_false_of_ne (fun hk => h hk.symm)
      have hb3 : (p.1 == k') = false := by rw [hp]; exact hb2
      rw [if_pos hb1]
      simp only [List.find?_cons, hb2, hb3]
      exact ih
    · have hb1 : ¬((p.1 == k) = true) := by simp [beq_false_of_ne hp]
      rw [if_neg hb1]
      by_cases hp' : p.1 = k'
      · have hb2 : (p.1 == k') = true := beq_iff_eq.mpr hp'
        simp only [List.find?_cons, hb2]
      · have hb2 : (p.1 == k') = false := beq_false_of_ne hp'
        simp only [List.find?_cons, hb2]
        exact ih

theorem PyDict.get?_set_ne (m : PyDict) (k k' : String) (v : Val) (h : k' ≠ k) :
    (m.set k v).get? k' = m.get? k' := by
  by_cases hm : List.any m (fun p => p.1 == k)
  · simp only [PyDict.set, hm, if_true, PyDict.get?]
    rw [find?_map_set m k k' v h]
  · have hm' : List.any m (fun p => p.1 == k) = false := Bool.eq_false_iff.mpr hm
    have hone : List.find? (fun q => q.1 == k') [(k, v)] = Option.none := by
      simp [List.find?, beq_false_of_ne (Ne.symm h)]
    simp [PyDict.set, hm', PyDict.get?, List.find?_append, hone]

/-- C6: a gate with `threshold = 3`, no custom condition and
`reset_on_fire`, fed a non-None input on each invocation from a store with
no prior gate state: the first two invocations leave `triggered = false`
and `output = None` (counts 1 and 2); the third fires with
`triggered = true` and `output` carrying the accumulated three inputs, and
firing resets the node-scoped accumulator to empty and the node-scoped
count to 0 in the variable store. -/
theorem gate_threshold_three :
    ∀ (i1 i2 i3 : Val) (vars0 : PyDict) (idx : Nat),
      vars0.get? (gateAccKey idx) = Option.none →
      vars0.get? (gateCountKey idx) = Option.none →
      i1.isNone = false → i2.isNone = false → i3.isNone = false →
      (let r1 := executeNode (NodeDef.gate 3 true) [("input", i1)] vars0 idx
       let r2 := executeNode (NodeDef.gate 3 true) [("input", i2)] r1.2 idx
       let r3 := executeNode (NodeDef.gate 3 true) [("input", i3)] r2.2 idx
       (r1.1.outputs.get? "triggered" = Option.some (Val.bool false) ∧
        r1.1.outputs.get? "output" = Option.some Val.none ∧
        r1.1.outputs.get? "count" = Option.some (Val.int 1)) ∧
       (r2.1.outputs.get? "triggered" = Option.some (Val.bool false) ∧
        r2.1.outputs.get? "output" = Option.some Val.none ∧
        r2.1.outputs.get? "count" = Option.some (Val.int 2)) ∧
       (r3.1.outputs.get? "triggered" = Option.some (Val.bool true) ∧
        r3.1.outputs.get? "output" = Option.some (Val.list [i1, i2, i3]) ∧
        r3.1.outputs.get? "count" = Option.some (Val.int 3) ∧
        r3.2.get? (gateAccKey idx) = Option.some (Val.list []) ∧
        r3.2.get? (gateCountKey idx) = Option.some (Val.int 0))) := by
  intro i1 i2 i3 vars0 idx hacc hcount h1 h2 h3
  have hne : gateAccKey idx ≠ gateCountKey idx := gateAccKey_ne_gateCountKey idx idx
  have haccD : vars0.getD (gateAccKey idx) (Val.list []) = Val.list [] := by
    show (vars0.get? (gateAccKey idx)).getD (Val.list []) = Val.list []
    rw [hacc]
    rfl
  have hcountD : vars0.getD (gateCountKey idx) (Val.int 0) = Val.int 0 := by
    show (vars0.get? (gateCountKey idx)).getD (Val.int 0) = Val.int 0
    rw [hcount]
    rfl
  have tIn1 : PyDict.getNonNone [("input", i1)] "input" = Option.some i1 := by
    show (if i1.isNone = true then Option.none else Option.some i1) = Option.some i1
    rw [h1]
    simp
  have tIn2 : PyDict.getNonNone [("input", i2)] "input" = Option.some i2 := by
    show (if i2.isNone = true then Option.none else Option.some i2) = Option.some i2
    rw [h2]
    simp
  have tIn3 : PyDict.getNonNone [("input", i3)] "input" = Option.some i3 := by
    show (if i3.isNone = true then Option.none else Option.some i3) = Option.some i3
    rw [h3]
    simp
  have e1 : executeNode (NodeDef.gate 3 true) [("input", i1)] vars0 idx =
      ({ outputs := [("flow_out", Val.dict vars0),
          ("count", Val.int 1), ("accumulated", Val.list [i1]),
          ("triggered", Val.bool false), ("output", Val.none)] },
       (vars0.set (gateAccKey idx) (Val.list [i1])).set (gateCountKey idx) (Val.int 1)) := by
    simp only [executeNode, execRaw, gateExecRaw, tIn1, haccD, hcountD]
    rfl
  have g1a : ((vars0.set (gateAccKey idx) (Val.list [i1])).set (gateCountKey idx)
      (Val.int 1)).getD (gateAccKey idx) (Val.list []) = Val.list [i1] := by
    show (((vars0.set (gateAccKey idx) (Val.list [i1])).set (gateCountKey idx)
      (Val.int 1)).get? (gateAccKey idx)).getD (Val.list []) = Val.list [i1]
    rw [PyDict.get?_set_ne _ _ _ _ hne, PyDict.get?_set_self]
    rfl
  have g1c : ((vars0.set (gateAccKey idx) (Val.list [i1])).set (gateCountKey idx)
      (Val.int 1)).getD (gateCountKey idx) (Val.int 0) = Val.int 1 := by
    show (((vars0.set (gateAccKey idx) (Val.list [i1])).set (gateCountKey idx)
      (Val.int 1)).get? (gateCountKey idx)).getD (Val.int 0) = Val.int 1
    rw [PyDict.get?_set_self]
    rfl
  have e2 : executeNode (NodeDef.gate 3 true) [("input", i2)]
      ((vars0.set (gateAccKey idx) (Val.list [i1])).set (gateCountKey idx) (Val.int 1)) idx =
      ({ outputs := [("flow_out", Val.dict ((vars0.set (gateAccKey idx) (Val.list [i1])).set
            (gateCountKey idx) (Val.int 1))),
          ("count", Val.int 2), ("accumulated", Val.list [i1, i2]),
          ("triggered", Val.bool false), ("output", Val.none)] },
       ((((vars0.set (gateAccKey idx) (Val.list [i1])).set (gateCountKey idx)
          (Val.int 1)).set (gateAccKey idx) (Val.list [i1, i2])).set (gateCountKey idx)
          (Val.int 2))) := by
    simp only [executeNode, execRaw, gateExecRaw, tIn2, g1a, g1c]
    rfl
  have g2a : (((((vars0.set (gateAccKey idx) (Val.list [i1])).set (gateCountKey idx)
      (Val.int 1)).set (gateAccKey idx) (Val.list [i1, i2])).set (gateCountKey idx)
      (Val.int 2))).getD (gateAccKey idx) (Val.list []) = Val.list [i1, i2] := by
    show ((((((vars0.set (gateAccKey idx) (Val.list [i1])).set (gateCountKey idx)
      (Val.int 1)).set (gateAccKey idx) (Val.list [i1, i2])).set (gateCountKey idx)
      (Val.int 2))).get? (gateAccKey idx)).getD (Val.list []) = Val.list [i1, i2]
    rw [PyDict.get?_set_ne _ _ _ _ hne, PyDict.get?_set_self]
    rfl
  have g2c : (((((vars0.set (gateAccKey idx) (Val.list [i1])).set (gateCountKey idx)
      (Val.int 1)).set (gateAccKey idx) (Val.list [i1, i2])).set (gateCountKey idx)
      (Val.int 2))).getD (gateCountKey idx) (Val.int 0) = Val.int 2 := by
    show ((((((vars0.set (gateAccKey idx) (Val.list [i1])).set (gateCountKey idx)
      (Val.int 1)).set (gateAccKey idx) (Val.list [i1, i2])).set (gateCountKey idx)
      (Val.int 2))).get? (gateCountKey idx)).getD (Val.int 0) = Val.int 2
    rw [PyDict.get?_set_self]
    rfl
  have e3 : executeNode (NodeDef.gate 3 true) [("input", i3)]
      ((((vars0.set (gateAccKey idx) (Val.list [i1])).set (gateCountKey idx)
        (Val.int 1)).set (gateAccKey idx) (Val.list [i1, i2])).set (gateCountKey idx)
        (Val.int 2)) idx =
      ({ outputs := [("flow_out", Val.dict ((((vars0.set (gateAccKey idx)
            (Val.list [i1])).set (gateCountKey idx) (Val.int 1)).set (gateAccKey idx)
            (Val.list [i1, i2])).set (gateCountKey idx) (Val.int 2))),
          ("count", Val.int 3), ("accumulated", Val.list [i1, i2, i3]),
          ("triggered", Val.bool true), ("output", Val.list [i1, i2, i3]),
          ("_gate_reset", Val.bool true)] },
       ((((((vars0.set (gateAccKey idx) (Val.list [i1])).set (gateCountKey idx)
          (Val.int 1)).set (gateAccKey idx) (Val.list [i1, i2])).set (gateCountKey idx)
          (Val.int 2)).set (gateAccKey idx) (Val.list [i1, i2, i3])).set (gateCountKey idx)
          (Val.int 3)).set (gateAccKey idx) (Val.list []) |>.set (gateCountKey idx)
          (Val.int 0)) := by
    simp only [executeNode, execRaw, gateExecRaw, tIn3, g2a, g2c]
    rfl
  simp only [e1, e2, e3]
  refine ⟨⟨rfl, rfl, rfl⟩, ⟨rfl, rfl, rfl⟩, ⟨rfl, rfl, rfl, ?_, ?_⟩⟩
  · rw [PyDict.get?_set_ne _ _ _ _ hne, PyDict.get?_set_self]
  · rw [PyDict.get?_set_self]

/-- C6 (witness): the gate behaviour applied to three concrete int inputs
on a fresh store at node index 7. -/
theorem gate_threshold_three_witness :
    (let r1 := executeNode (NodeDef.gate 3 true) [("input", Val.int 10)] [] 7
     let r2 := executeNode (NodeDef.gate 3 true) [("input", Val.int 20)] r1.2 7
     let r3 := executeNode (NodeDef.gate 3 true) [("input", Val.int 30)] r2.2 7
     (r1.1.outputs.get? "triggered" = Option.some (Val.bool false) ∧
      r1.1.outputs.get? "output" = Option.some Val.none ∧
      r1.1.outputs.get? "count" = Option.some (Val.int 1)) ∧
     (r2.1.outputs.get? "triggered" = Option.some (Val.bool false) ∧
      r2.1.outputs.get? "output" = Option.some Val.none ∧
      r2.1.outputs.get? "count" = Option.some (Val.int 2)) ∧
     (r3.1.outputs.get? "triggered" = Option.some (Val.bool true) ∧
      r3.1.outputs.get? "output" = Option.some (Val.list [Val.int 10, Val.int 20, Val.int 30]) ∧
      r3.1.outputs.get? "count" = Option.some (Val.int 3) ∧
      r3.2.get? (gateAccKey 7) = Option.some (Val.list []) ∧
      r3.2.get? (gateCountKey 7) = Option.some (Val.int 0))) :=
  gate_threshold_three (Val.int 10) (Val.int 20) (Val.int 30) [] 7 rfl rfl rfl rfl rfl

/-- C2: a failed node result aborts the run immediately.  (1) An exception
escaping a node's `execute` is caught at the per-node boundary and becomes
a failed result carrying the message; (2) handling any completion whose
result has `success = false` marks the run FAILED with the error recorded
(`Node <i> failed: <msg>`), records the failed node, and releases nothing
new into ready; (3) a non-running state is a fixed point of the scheduler,
so no further node execution is ever launched; (4) the concrete run whose
gate raises at `accumulated.append` ends FAILED with that error and an
execution log that stops at the gate. -/
theorem failed_result_aborts_run :
    (∀ (cfg : NodeDef) (inputs vars : PyDict) (idx : Nat) (e : String) (vars' : PyDict),
        execRaw cfg inputs vars idx = Except.error (e, vars') →
        executeNode cfg inputs vars idx =
          ({ outputs := [], success := false, error := Option.some e }, vars'))
  ∧ (∀ (wf : Workflow) (s : EngineState) (idx : Nat) (res : NodeResult),
        res.success = false →
        (handleCompletion wf s idx res).status = RunStatus.failed ∧
        (handleCompletion wf s idx res).error =
          Option.some ("Node " ++ natRepr idx ++ " failed: " ++ errText res.error) ∧
        (handleCompletion wf s idx res).ready = s.ready ∧
        (handleCompletion wf s idx res).execLog = s.execLog ∧
        (handleCompletion wf s idx res).failedNodes = s.failedNodes ++ [idx])
  ∧ (∀ (wf : Workflow) (n : Nat) (s : EngineState),
        s.status ≠ RunStatus.running → stepN wf n s = s)
  ∧ ((stepN wfGateFail 10 (initState wfGateFail [(gateAccKey 2, Val.int 5)])).status =
        RunStatus.failed ∧
      (stepN wfGateFail 10 (initState wfGateFail [(gateAccKey 2, Val.int 5)])).error =
        Option.some "Node 2 failed: AttributeError: gate accumulator has no append" ∧
      (stepN wfGateFail 10 (initState wfGateFail [(gateAccKey 2, Val.int 5)])).execLog =
        [0, 1, 2]) := by
  refine ⟨?_, ?_, ?_, ?_⟩
  · intro cfg inputs vars idx e vars' h
    simp [executeNode, h]
  · intro wf s idx res h
    refine ⟨?_, ?_, ?_, ?_, ?_⟩ <;> simp [handleCompletion, h]
  · intro wf n
    induction n with
    | zero => intro s _; rfl
    | succ n ih =>
      intro s h
      show stepN wf n (step wf s) = s
      have hstep : step wf s = s := by
        simp [step, h]
      rw [hstep]
      exact ih s h
  · exact ⟨by decide, by decide, by decide⟩

/-- C2 (witness): the three general facts applied at concrete inputs —
the failing gate execution is converted at the boundary, handling it
fails the run with the recorded error, and a failed state is a scheduler
fixed point. -/
theorem failed_result_aborts_run_witness :
    (execRaw (NodeDef.gate 3 true) [("input", Val.str "x")] [(gateAccKey 2, Val.int 5)] 2 =
        Except.error ("AttributeError: gate accumulator has no append",
          [(gateAccKey 2, Val.int 5)]) ∧
      executeNode (NodeDef.gate 3 true) [("input", Val.str "x")] [(gateAccKey 2, Val.int 5)] 2 =
        ({ outputs := [], success := false,
           error := Option.some "AttributeError: gate accumulator has no append" },
         [(gateAccKey 2, Val.int 5)]))
  ∧ ((handleCompletion wfGateFail (initState wfGateFail []) 2
        { success := false, error := Option.some "boom" }).status = RunStatus.failed ∧
      (handleCompletion wfGateFail (initState wfGateFail []) 2
        { success := false, error := Option.some "boom" }).error =
        Option.some ("Node " ++ natRepr 2 ++ " failed: " ++
          errText (Option.some "boom")) ∧
      (handleCompletion wfGateFail (initState wfGateFail []) 2
        { success := false, error := Option.some "boom" }).ready =
        (initState wfGateFail []).ready ∧
      (handleCompletion wfGateFail (initState wfGateFail []) 2
        { success := false, error := Option.some "boom" }).execLog =
        (initState wfGateFail []).execLog ∧
      (handleCompletion wfGateFail (initState wfGateFail []) 2
        { success := false, error := Option.some "boom" }).failedNodes =
        (initState wfGateFail []).failedNodes ++ [2])
  ∧ stepN wfGateFail 3 (stepN wfGateFail 10
      (initState wfGateFail [(gateAccKey 2, Val.int 5)])) =
    stepN wfGateFail 10 (initState wfGateFail [(gateAccKey 2, Val.int 5)]) :=
  ⟨⟨rfl, failed_result_aborts_run.1 (NodeDef.gate 3 true) [("input", Val.str "x")]
      [(gateAccKey 2, Val.int 5)] 2 "AttributeError: gate accumulator has no append"
      [(gateAccKey 2, Val.int 5)] rfl⟩,
   failed_result_aborts_run.2.1 wfGateFail (initState wfGateFail []) 2
     { success := false, error := Option.some "boom" } rfl,
   failed_result_aborts_run.2.2.1 wfGateFail 3
     (stepN wfGateFail 10 (initState wfGateFail [(gateAccKey 2, Val.int 5)]))
     (by decide)⟩

/-- C8: validation reports `valid = false` exactly when the workflow has
more than one Start node or more than one End node; zero Start (or End)
nodes only adds the corresponding warning; `start_workflow` raises
(returns an error, before any execution is created) exactly on an invalid
workflow and otherwise creates the run. -/
theorem validation_start_end_counts :
    (∀ wf : Workflow, (validateWorkflow wf).valid = false ↔
        (countTag wf "start_flow" > 1 ∨ countTag wf "end_flow" > 1))
  ∧ (∀ wf : Workflow, countTag wf "start_flow" = 0 →
        "No Start node — execution begins from flow nodes with no incoming edges" ∈
          (validateWorkflow wf).warnings)
  ∧ (∀ wf : Workflow, countTag wf "end_flow" = 0 →
        "No End node — execution halts when no more flow nodes are ready" ∈
          (validateWorkflow wf).warnings)
  ∧ (∀ (wf : Workflow) (eid : String), (validateWorkflow wf).valid = false →
        startWorkflow wf eid = Except.error
          ("Invalid workflow: " ++ String.intercalate "; " (validateWorkflow wf).errors))
  ∧ (∀ (wf : Workflow) (eid : String), (validateWorkflow wf).valid = true →
        startWorkflow wf eid = Except.ok eid) := by
  refine ⟨?_, ?_, ?_, ?_, ?_⟩
  · intro wf
    by_cases h1 : countTag wf "start_flow" = 0 <;>
      by_cases h2 : countTag wf "start_flow" > 1 <;>
      by_cases h3 : countTag wf "end_flow" = 0 <;>
      by_cases h4 : countTag wf "end_flow" > 1 <;>
      simp [validateWorkflow, h1, h2, h3, h4]
  · intro wf h
    simp [validateWorkflow, h]
  · intro wf h
    simp [validateWorkflow, h]
  · intro wf eid h
    simp [startWorkflow, h]
  · intro wf eid h
    simp [startWorkflow, h]

/-- C8 (witness): a two-Start workflow is invalid and `start_workflow`
refuses it; a zero-Start zero-End workflow only warns; the loop example
(one Start, one End) starts normally. -/
theorem validation_start_end_counts_witness :
    ((validateWorkflow { nodes := [NodeDef.startFlow, NodeDef.startFlow], edges := [] }).valid =
        false ↔
      (countTag { nodes := [NodeDef.startFlow, NodeDef.startFlow], edges := [] } "start_flow" > 1 ∨
       countTag { nodes := [NodeDef.startFlow, NodeDef.startFlow], edges := [] } "end_flow" > 1))
  ∧ ("No Start node — execution begins from flow nodes with no incoming edges" ∈
      (validateWorkflow { nodes := [NodeDef.gate 3 true], edges := [] }).warnings)
  ∧ ("No End node — execution halts when no more flow nodes are ready" ∈
      (validateWorkflow { nodes := [NodeDef.gate 3 true], edges := [] }).warnings)
  ∧ (startWorkflow { nodes := [NodeDef.startFlow, NodeDef.startFlow], edges := [] } "run-1" =
      Except.error ("Invalid workflow: " ++ String.intercalate "; "
        (validateWorkflow
          { nodes := [NodeDef.startFlow, NodeDef.startFlow], edges := [] }).errors))
  ∧ startWorkflow wfLoopThree "run-2" = Except.ok "run-2" :=
  ⟨validation_start_end_counts.1 { nodes := [NodeDef.startFlow, NodeDef.startFlow], edges := [] },
   validation_start_end_counts.2.1 { nodes := [NodeDef.gate 3 true], edges := [] } (by decide),
   validation_start_end_counts.2.2.1 { nodes := [NodeDef.gate 3 true], edges := [] } (by decide),
   validation_start_end_counts.2.2.2.1
     { nodes := [NodeDef.startFlow, NodeDef.startFlow], edges := [] } "run-1" (by decide),
   validation_start_end_counts.2.2.2.2 wfLoopThree "run-2" (by decide)⟩

/-- C3 (counterexample): both halves of the claimed invariant fail on
reachable states.  In the delay run, after the wait signal is handled the
node's `node_outputs` entry (stored at completion) persists although the
node is in `waiting` and not in `completed`; in the break-while-waiting
run, `_skip_loop_body` marks the still-waiting delay node completed, so
one index is in two of the five sets at once. -/
theorem state_sets_invariant_counterexample :
    (((stepN wfDelayRun 3 (initState wfDelayRun [])).outputsMap 2).isSome = true ∧
      2 ∉ (stepN wfDelayRun 3 (initState wfDelayRun [])).completed ∧
      2 ∈ (stepN wfDelayRun 3 (initState wfDelayRun [])).waiting)
  ∧ (2 ∈ (stepN wfBreakWait 4 (initState wfBreakWait [])).completed ∧
      2 ∈ (stepN wfBreakWait 4 (initState wfBreakWait [])).waiting) :=
  ⟨⟨by decide, by decide, by decide⟩, by decide, by decide⟩

/-- C3 (amended): how set membership is really maintained.  Seeding and
dependency propagation move nodes between the disjoint pending/ready
pair; propagation leaves completed untouched and never releases a
completed node; wait-signal handling moves the node out of completed into
waiting while leaving every other set and all `node_outputs` entries in
place; timer resume moves the node from waiting back to ready; a loop
reset returns body nodes to pending, removes them from every other set
and deletes their outputs; but loop-body skipping adds body nodes to
completed while removing them only from pending and ready — `running` and
`waiting` are not touched, so a suspended body node transiently belongs
to two sets — and deletes no outputs.  Hence `node_outputs` entries are
created at completion (or by a route short-circuit) and removed only by a
loop reset, not when a node leaves `completed`. -/
theorem scheduler_set_moves :
    (∀ (deps : Nat → Finset Nat) (pending ready : Finset Nat),
        Disjoint pending ready →
        Disjoint (seedReady deps pending ready).1 (seedReady deps pending ready).2)
  ∧ (∀ (deps : Nat → Finset Nat) (allowed : Finset Nat) (s : EngineState),
        (propagateDependents deps allowed s).completed = s.completed ∧
        (propagateDependents deps allowed s).waiting = s.waiting ∧
        (propagateDependents deps allowed s).running = s.running ∧
        (propagateDependents deps allowed s).outputsMap = s.outputsMap ∧
        (Disjoint s.pending s.ready →
          Disjoint (propagateDependents deps allowed s).pending
            (propagateDependents deps allowed s).ready) ∧
        (Disjoint s.ready s.completed →
          Disjoint (propagateDependents deps allowed s).ready
            (propagateDependents deps allowed s).completed))
  ∧ (∀ (s : EngineState) (idx : Nat) (ws : WaitSig),
        (handleWaitTimer s idx ws).completed = s.completed.erase idx ∧
        (handleWaitTimer s idx ws).waiting = insert idx s.waiting ∧
        (handleWaitTimer s idx ws).pending = s.pending ∧
        (handleWaitTimer s idx ws).ready = s.ready ∧
        (handleWaitTimer s idx ws).running = s.running ∧
        (handleWaitTimer s idx ws).outputsMap = s.outputsMap)
  ∧ (∀ (s : EngineState) (idx : Nat),
        (fireTimer s idx).waiting = s.waiting.erase idx ∧
        (fireTimer s idx).ready = insert idx s.ready ∧
        (fireTimer s idx).pending = s.pending ∧
        (fireTimer s idx).completed = s.completed ∧
        (fireTimer s idx).outputsMap = s.outputsMap)
  ∧ (∀ (ctx : LoopCtx) (s : EngineState) (j : Nat), j ∈ ctx.bodyNodes →
        j ∈ (resetLoopBody ctx s).pending ∧
        j ∉ (resetLoopBody ctx s).completed ∧
        j ∉ (resetLoopBody ctx s).ready ∧
        j ∉ (resetLoopBody ctx s).running ∧
        j ∉ (resetLoopBody ctx s).waiting ∧
        (resetLoopBody ctx s).outputsMap j = Option.none)
  ∧ (∀ (ctx : LoopCtx) (s : EngineState),
        (skipLoopBody ctx s).running = s.running ∧
        (skipLoopBody ctx s).waiting = s.waiting ∧
        (skipLoopBody ctx s).outputsMap = s.outputsMap ∧
        ∀ j ∈ ctx.bodyNodes,
          j ∈ (skipLoopBody ctx s).completed ∧
          j ∉ (skipLoopBody ctx s).pending ∧
          j ∉ (skipLoopBody ctx s).ready) := by
  refine ⟨?_, ?_, ?_, ?_, ?_, ?_⟩
  · intro deps pending ready hd
    simp only [seedReady]
    rw [Finset.disjoint_left]
    intro a ha hb
    rw [Finset.mem_filter] at ha
    rcases Finset.mem_union.mp hb with hb | hb
    · exact (Finset.disjoint_left.mp hd ha.1) hb
    · exact ha.2 (Finset.mem_filter.mp hb).2
  · intro deps allowed s
    refine ⟨rfl, rfl, rfl, rfl, ?_, ?_⟩
    · intro hd
      simp only [propagateDependents]
      rw [Finset.disjoint_left]
      intro a ha hb
      have ha' := Finset.mem_sdiff.mp ha
      rcases Finset.mem_union.mp hb with hb | hb
      · exact (Finset.disjoint_left.mp hd ha'.1) hb
      · exact ha'.2 hb
    · intro hd
      simp only [propagateDependents]
      rw [Finset.disjoint_left]
      intro a ha hb
      rcases Finset.mem_union.mp ha with ha | ha
      · exact (Finset.disjoint_left.mp hd ha) hb
      · exact (Finset.mem_filter.mp ha).2.1 hb
  · intro s idx ws
    exact ⟨rfl, rfl, rfl, rfl, rfl, rfl⟩
  · intro s idx
    exact ⟨rfl, rfl, rfl, rfl, rfl⟩
  · intro ctx s j hj
    refine ⟨?_, ?_, ?_, ?_, ?_, ?_⟩
    · cases he : ctx.loopEndIdx with
      | some e =>
        simp only [resetLoopBody, he]
        exact Finset.mem_insert_of_mem (Finset.mem_union_right _ hj)
      | none =>
        simp only [resetLoopBody, he]
        exact Finset.mem_union_right _ hj
    · cases he : ctx.loopEndIdx with
      | some e =>
        simp only [resetLoopBody, he]
        intro hmem
        exact (Finset.mem_sdiff.mp (Finset.mem_of_mem_erase hmem)).2 hj
      | none =>
        simp only [resetLoopBody, he]
        intro hmem
        exact (Finset.mem_sdiff.mp hmem).2 hj
    · cases he : ctx.loopEndIdx with
      | some e =>
        simp only [resetLoopBody, he]
        intro hmem
        exact (Finset.mem_sdiff.mp (Finset.mem_of_mem_erase hmem)).2 hj
      | none =>
        simp only [resetLoopBody, he]
        intro hmem
        exact (Finset.mem_sdiff.mp hmem).2 hj
    · cases he : ctx.loopEndIdx with
      | some e =>
        simp only [resetLoopBody, he]
        intro hmem
        exact (Finset.mem_sdiff.mp (Finset.mem_of_mem_erase hmem)).2 hj
      | none =>
        simp only [resetLoopBody, he]
        intro hmem
        exact (Finset.mem_sdiff.mp hmem).2 hj
    · cases he : ctx.loopEndIdx with
      | some e =>
        simp only [resetLoopBody, he]
        intro hmem
        exact (Finset.mem_sdiff.mp (Finset.mem_of_mem_erase hmem)).2 hj
      | none =>
        simp only [resetLoopBody, he]
        intro hmem
        exact (Finset.mem_sdiff.mp hmem).2 hj
    · cases he : ctx.loopEndIdx with
      | some e =>
        simp only [resetLoopBody, he, updMap]
        by_cases hje : j = e
        · simp [hje]
        · simp only [if_neg hje]
          rw [if_pos hj]
      | none =>
        simp only [resetLoopBody, he]
        rw [if_pos hj]
  · intro ctx s
    refine ⟨rfl, rfl, rfl, ?_⟩
    intro j hj
    have hj' : j ∈ (match ctx.loopEndIdx with
        | Option.some e => insert e ctx.bodyNodes
        | Option.none => ctx.bodyNodes) := by
      cases ctx.loopEndIdx with
      | some e => exact Finset.mem_insert_of_mem hj
      | none => exact hj
    refine ⟨Finset.mem_union_right _ hj', ?_, ?_⟩
    · intro hmem
      exact (Finset.mem_sdiff.mp hmem).2 hj'
    · intro hmem
      exact (Finset.mem_sdiff.mp hmem).2 hj'

/-- C3 (witness): the amended transition facts applied at concrete
inputs — the break-while-waiting workflow's loop context and states. -/
theorem scheduler_set_moves_witness :
    Disjoint (seedReady (buildDependencies (activeEdges wfBreakWait))
        ({0, 1, 2, 3, 4, 5} : Finset Nat) ∅).1
      (seedReady (buildDependencies (activeEdges wfBreakWait))
        ({0, 1, 2, 3, 4, 5} : Finset Nat) ∅).2
  ∧ (2 ∈ (resetLoopBody { loopStartIdx := 1, loopEndIdx := Option.some 4, bodyNodes := {2, 3} } (stepN wfBreakWait 4 (initState wfBreakWait []))).pending ∧
     2 ∉ (resetLoopBody { loopStartIdx := 1, loopEndIdx := Option.some 4, bodyNodes := {2, 3} } (stepN wfBreakWait 4 (initState wfBreakWait []))).completed)
  ∧ ∀ j ∈ ({2, 3} : Finset Nat),
      j ∈ (skipLoopBody { loopStartIdx := 1, loopEndIdx := Option.some 4, bodyNodes := {2, 3} } (stepN wfBreakWait 3 (initState wfBreakWait []))).completed ∧
      j ∉ (skipLoopBody { loopStartIdx := 1, loopEndIdx := Option.some 4, bodyNodes := {2, 3} } (stepN wfBreakWait 3 (initState wfBreakWait []))).pending ∧
      j ∉ (skipLoopBody { loopStartIdx := 1, loopEndIdx := Option.some 4, bodyNodes := {2, 3} } (stepN wfBreakWait 3 (initState wfBreakWait []))).ready :=
  ⟨scheduler_set_moves.1 (buildDependencies (activeEdges wfBreakWait))
      ({0, 1, 2, 3, 4, 5} : Finset Nat) ∅ (by decide),
   ⟨(scheduler_set_moves.2.2.2.2.1 { loopStartIdx := 1, loopEndIdx := Option.some 4, bodyNodes := {2, 3} } (stepN wfBreakWait 4 (initState wfBreakWait [])) 2
        (by decide)).1,
    (scheduler_set_moves.2.2.2.2.1 { loopStartIdx := 1, loopEndIdx := Option.some 4, bodyNodes := {2, 3} } (stepN wfBreakWait 4 (initState wfBreakWait [])) 2
        (by decide)).2.1⟩,
   (scheduler_set_moves.2.2.2.2.2 { loopStartIdx := 1, loopEndIdx := Option.some 4, bodyNodes := {2, 3} } (stepN wfBreakWait 3 (initState wfBreakWait []))).2.2.2⟩

end Numel
